import Mathlib

/-!
Verification of the AgentForge base `Agent` module
(`src/agentforge/agent/agent.py`): a shallow embedding of its data
model (Python dictionaries of dynamic values), its pure helpers
(template rendering, prompt selection, task-order bookkeeping) and its
effectful pipeline (storage persistence, LLM invocation), together
with theorems settling the specification claims.
-/

set_option maxHeartbeats 1000000
set_option linter.unusedVariables false

namespace AgentForge

/-- Python runtime values as used by the module: `None`, booleans,
integers, strings, lists and string-keyed dictionaries (modelled as
association lists in insertion order, matching Python 3.7+ dict
ordering).  Floats never occur in this module's data flow and are not
modelled. -/
inductive PyVal : Type where
  | none : PyVal
  | bool (b : Bool) : PyVal
  | int (n : Int) : PyVal
  | str (s : String) : PyVal
  | list (l : List PyVal) : PyVal
  | dict (d : List (String × PyVal)) : PyVal

/-- Python exceptions that the module's code paths can raise. -/
inductive Err : Type where
  | keyError (k : String)
  | indexError
  | typeError
  | attributeError
  | valueError (s : String)
  | storageError (s : String)
deriving DecidableEq, Repr

/-- A Python dictionary with string keys: association list in
insertion order. -/
abbrev Dict := List (String × PyVal)

/-- `d[k]` lookup: first binding wins (Python dicts have unique keys;
on lists with duplicates all our operations keep first-lookup
semantics consistent). -/
def dictGet (d : Dict) (k : String) : Option PyVal :=
  match d with
  | [] => Option.none
  | (k', v) :: rest => if k' = k then some v else dictGet rest k

/-- `k in d` membership test. -/
def dictContains (d : Dict) (k : String) : Bool :=
  (dictGet d k).isSome

/-- `d.get(k)` / `d.get(k, None)`: `None` when the key is absent. -/
def dictGetOrNone (d : Dict) (k : String) : PyVal :=
  (dictGet d k).getD PyVal.none

/-- `d[k] = v` assignment: replace the value in place when the key is
present (every binding of `k`, so lookup semantics match Python even
on lists with duplicate keys), append otherwise. -/
def dictSet (d : Dict) (k : String) (v : PyVal) : Dict :=
  if dictContains d k then
    d.map (fun p => if p.1 = k then (k, v) else p)
  else
    d ++ [(k, v)]

/-- `d.update(u)`: assign each binding of `u` in order. -/
def dictUpdate (d : Dict) (u : Dict) : Dict :=
  u.foldl (fun acc p => dictSet acc p.1 p.2) d

/-- `d.pop(k)` (ignoring the returned value): remove the binding of
`k`. -/
def dictPop (d : Dict) (k : String) : Dict :=
  d.filter (fun p => p.1 ≠ k)

/-- The keys of a dictionary are pairwise distinct (always true of
real Python dicts; our association lists only need it as a hypothesis
where stated). -/
def keysNodup (d : Dict) : Prop :=
  (d.map Prod.fst).Nodup

instance (d : Dict) : Decidable (keysNodup d) := by
  unfold keysNodup; infer_instance

mutual

/-- Python `repr` of a value (string escaping inside `repr` of
strings is not modelled; no claim depends on it). -/
def pyRepr : PyVal → String
  | .none => "None"
  | .bool b => if b then "True" else "False"
  | .int n => toString n
  | .str s => "'" ++ s ++ "'"
  | .list l => "[" ++ String.intercalate ", " (pyReprList l) ++ "]"
  | .dict d => "\x7b" ++ String.intercalate ", " (pyReprDict d) ++ "\x7d"

/-- `repr` of each element of a list. -/
def pyReprList : List PyVal → List String
  | [] => []
  | v :: vs => pyRepr v :: pyReprList vs

/-- `repr` of each `key: value` entry of a dictionary. -/
def pyReprDict : List (String × PyVal) → List String
  | [] => []
  | (k, v) :: rest => ("'" ++ k ++ "': " ++ pyRepr v) :: pyReprDict rest

end

/-- Python `str()` of a value. -/
def pyStr : PyVal → String
  | .str s => s
  | v => pyRepr v

/-- Python truthiness. -/
def pyTruthy : PyVal → Bool
  | .none => false
  | .bool b => b
  | .int n => n ≠ 0
  | .str s => s ≠ ""
  | .list l => !l.isEmpty
  | .dict d => !d.isEmpty

/-- Python `int()` conversion as used by `_calculate_next_task_order`:
identity on integers, `True`/`False` to 1/0, base-10 parse of strings
(`ValueError` on failure), `TypeError` otherwise. -/
def pyInt : PyVal → Except Err Int
  | .int n => Except.ok n
  | .bool b => Except.ok (if b then 1 else 0)
  | .str s =>
    match s.trim.toInt? with
    | some n => Except.ok n
    | Option.none => Except.error (Err.valueError s)
  | _ => Except.error Err.typeError

/-- Subscript `v[k]` with a string key: `KeyError` on a dictionary
missing the key, `TypeError` on non-dictionaries. -/
def getItem (v : PyVal) (k : String) : Except Err PyVal :=
  match v with
  | .dict d =>
    match dictGet d k with
    | some x => Except.ok x
    | Option.none => Except.error (Err.keyError k)
  | _ => Except.error Err.typeError

/-- `v.get(k, None)` on a value expected to be a dictionary
(`AttributeError` otherwise, as in Python). -/
def pyGetOrNone (v : PyVal) (k : String) : Except Err PyVal :=
  match v with
  | .dict d => Except.ok (dictGetOrNone d k)
  | _ => Except.error Err.attributeError

/-- Is the value exactly Python `None` (the `is None` test)? -/
def isNone : PyVal → Bool
  | .none => true
  | _ => false

/-! ### A model of Python `str.format`

`_render_template` relies on `str.format` with keyword arguments.  A
format string is parsed into literal characters and `{name}`
replacement fields; `\x7b\x7b` and `\x7d\x7d` are escapes for literal
braces.  Conversion/format specs (`!r`, `:>10`), attribute/index
access inside fields and auto-numbered positional fields are not used
by this module and are not modelled (a field's whole text is taken as
the keyword name). -/

/-- One parsed element of a format string. -/
inductive TemplateItem : Type where
  | lit (c : Char)
  | var (name : String)

/-- Scan a replacement field after an opening brace: the characters
up to the closing brace, plus the remaining input.  `none` when the
brace is never closed. -/
def takeField : List Char → Option (String × List Char)
  | [] => Option.none
  | c :: rest =>
    if c = '}' then some ("", rest)
    else
      match takeField rest with
      | some (s, r) => some (c.toString ++ s, r)
      | Option.none => Option.none

/-- Parse a format string (as a character list) into template items:
`ValueError` on a stray single brace, as in Python.  Structural
recursion on a fuel argument (every step consumes at least one
character, so fuel equal to the input length suffices; the
out-of-fuel equation is unreachable from `parseFormat`). -/
def parseFormatFuel : Nat → List Char → Except Err (List TemplateItem)
  | _, [] => Except.ok []
  | fuel + 1, '{' :: '{' :: rest =>
    (parseFormatFuel fuel rest).map (TemplateItem.lit '{' :: ·)
  | fuel + 1, '}' :: '}' :: rest =>
    (parseFormatFuel fuel rest).map (TemplateItem.lit '}' :: ·)
  | _ + 1, '}' :: _ =>
    Except.error (Err.valueError "Single brace encountered in format string")
  | fuel + 1, '{' :: rest =>
    match takeField rest with
    | some (name, r) => (parseFormatFuel fuel r).map (TemplateItem.var name :: ·)
    | Option.none =>
      Except.error (Err.valueError "Single brace encountered in format string")
  | fuel + 1, c :: rest => (parseFormatFuel fuel rest).map (TemplateItem.lit c :: ·)
  | 0, _ :: _ => Except.error (Err.valueError "format parser out of fuel")

/-- Parse a format string. -/
def parseFormat (cs : List Char) : Except Err (List TemplateItem) :=
  parseFormatFuel cs.length cs

/-- The names of the replacement fields of a parsed format string. -/
def placeholders : List TemplateItem → List String
  | [] => []
  | TemplateItem.lit _ :: rest => placeholders rest
  | TemplateItem.var n :: rest => n :: placeholders rest

/-- Substitute a mapping into parsed template items, left to right:
`KeyError` on the first replacement field missing from the mapping,
`str()` of the mapped value otherwise. -/
def substItems (items : List TemplateItem) (m : Dict) : Except Err String :=
  match items with
  | [] => Except.ok ""
  | TemplateItem.lit c :: rest => (substItems rest m).map (c.toString ++ ·)
  | TemplateItem.var n :: rest =>
    match dictGet m n with
    | some v => (substItems rest m).map (pyStr v ++ ·)
    | Option.none => Except.error (Err.keyError n)

/-- `template.format(**m)`. -/
def pyFormat (template : String) (m : Dict) : Except Err String := do
  let items ← parseFormat template.toList
  substItems items m

/-! ### Pure helpers of `agent.py` -/

/-- Embeds `_calculate_next_task_order`:
`return int(this_task_order) + 1`. -/
def _calculate_next_task_order (this_task_order : PyVal) : Except Err Int := do
  let n ← pyInt this_task_order
  return n + 1

/-- The dict comprehension of `_render_template`:
`\x7bk: v for k, v in data.items() if k in variables\x7d`, the `k in
variables` test succeeding exactly on string elements equal to
`k`. -/
def filterVars (data : Dict) (vs : List PyVal) : Dict :=
  data.filter fun p =>
    vs.any fun v =>
      match v with
      | PyVal.str s => s = p.1
      | _ => false

/-- Embeds `_render_template`: filter `data` down to the keys listed
in `variables`, then `template.format(**filtered)`.  A non-list
`variables` or a non-string `template` raises (malformed persona;
Python raises comparable errors there). -/
def _render_template (template : PyVal) (vars : PyVal) (data : Dict) :
    Except Err String :=
  match vars with
  | PyVal.list vs =>
    match template with
    | PyVal.str t => pyFormat t (filterVars data vs)
    | _ => Except.error Err.attributeError
  | _ => Except.error Err.typeError

/-- Embeds `remove_prompt_if_none`: pop `prompt_type` from `prompts`
when it is present and truthy while `kwargs.get(kwarg_key) is
None`. -/
def remove_prompt_if_none (prompts : Dict) (kwargs : Dict)
    (prompt_type kwarg_key : String) : Dict :=
  if pyTruthy (dictGetOrNone prompts prompt_type)
      && isNone (dictGetOrNone kwargs kwarg_key) then
    dictPop prompts prompt_type
  else
    prompts

/-- Embeds `_handle_prompt_type`: `prompts.get(prompt_type, \x7b\x7d)`;
when truthy, the one `(template, vars)` pair, else no pairs. -/
def _handle_prompt_type (prompts : Dict) (prompt_type : String) :
    Except Err (List (PyVal × PyVal)) :=
  let prompt_data := dictGetOrNone prompts prompt_type
  if pyTruthy prompt_data then do
    let t ← getItem prompt_data "template"
    let v ← getItem prompt_data "vars"
    return [(t, v)]
  else
    return []

/-- Embeds `_set_task_order`: when `data.get('this_task_order')` is
not `None`, store `next_task_order = int(this_task_order) + 1`. -/
def _set_task_order (data : Dict) : Except Err Dict :=
  let task_order := dictGetOrNone data "this_task_order"
  if isNone task_order then
    Except.ok data
  else do
    let n ← _calculate_next_task_order task_order
    return dictSet data "next_task_order" (PyVal.int n)

/-! ### The effectful world: storage backend, LLM client, UUID source

The storage handle, the LLM handle and `uuid.uuid4()` are external
collaborators.  `World` models them: storage reads are answered by an
oracle keyed by collection name, every storage call is recorded in an
operation trace, LLM calls are recorded with their arguments, and
`uuid.uuid4()` draws successive values from an arbitrary supply
(freshness of real UUIDs is modelled as injectivity of the supply
where a theorem needs it). -/

/-- One call to the storage handle, with the parameters the module
passed. -/
inductive StorageOp : Type where
  | loadCollection (params : Dict)
  | saveMemory (params : Dict)
  | updateMemory (params : Dict)
  | clearCollection (collection_name : String)

/-- The external world one `run` interacts with. -/
structure World : Type where
  /-- Storage answer for `load_collection`, keyed by collection
  name; an `error` models the backend raising. -/
  loadResult : String → Except Err PyVal
  /-- The LLM's answer to `generate_text(prompts, **params)`. -/
  llmResponse : List String → Dict → String
  /-- The stream of values produced by successive `uuid.uuid4()`
  calls. -/
  uuidSupply : Nat → String
  /-- How many UUIDs have been drawn so far. -/
  uuidCounter : Nat
  /-- Trace of storage calls made so far. -/
  ops : List StorageOp
  /-- Trace of LLM calls made so far. -/
  llmCalls : List (List String × Dict)

/-- Computations over the world that can raise a Python exception:
state passing plus `Except`, exceptions preserving the state reached
so far (so the traces survive a failure). -/
def M (α : Type) : Type := World → Except Err α × World

/-- Return for `M`. -/
def mret {α : Type} (a : α) : M α := fun w => (Except.ok a, w)

/-- Bind for `M`: exceptions short-circuit, keeping the state. -/
def mbind {α β : Type} (x : M α) (f : α → M β) : M β := fun w =>
  match x w with
  | (Except.ok a, w') => f a w'
  | (Except.error e, w') => (Except.error e, w')

instance : Monad M where
  pure := mret
  bind := mbind

instance : LawfulMonad M :=
  LawfulMonad.mk' M
    (by
      intro α x
      funext w
      show mbind x (fun a => mret (id a)) w = x w
      unfold mbind mret
      rcases h : x w with ⟨e, w'⟩
      cases e <;> rfl)
    (by
      intro α β a f
      funext w
      show mbind (mret a) f w = f a w
      rfl)
    (by
      intro α β γ x f g
      funext w
      show mbind (mbind x f) g w = mbind x (fun a => mbind (f a) g) w
      unfold mbind
      rcases h : x w with ⟨e, w'⟩
      cases e <;> rfl)

/-- Raise a Python exception. -/
def mthrow {α : Type} (e : Err) : M α := fun w => (Except.error e, w)

/-- Run a pure fallible computation inside `M`. -/
def liftE {α : Type} (x : Except Err α) : M α := fun w => (x, w)

/-- `storage.load_collection(params)`: record the call, then answer
from the oracle for the named collection (raising what the backend
raises). -/
def load_collection (params : Dict) : M PyVal := fun w =>
  let w' := { w with ops := w.ops ++ [StorageOp.loadCollection params] }
  match dictGet params "collection_name" with
  | some (PyVal.str name) =>
    match w'.loadResult name with
    | Except.ok v => (Except.ok v, w')
    | Except.error e => (Except.error e, w')
  | _ => (Except.error Err.typeError, w')

/-- `storage.save_memory(params)`: record the call. -/
def save_memory (params : Dict) : M Unit := fun w =>
  (Except.ok (), { w with ops := w.ops ++ [StorageOp.saveMemory params] })

/-- `storage.update_memory(params)`: record the call. -/
def update_memory (params : Dict) : M Unit := fun w =>
  (Except.ok (), { w with ops := w.ops ++ [StorageOp.updateMemory params] })

/-- `storage.clear_collection(name)`: record the call. -/
def clear_collection (collection_name : String) : M Unit := fun w =>
  (Except.ok (),
   { w with ops := w.ops ++ [StorageOp.clearCollection collection_name] })

/-- `str(uuid.uuid4())`: the next value of the supply. -/
def uuid4 : M String := fun w =>
  (Except.ok (w.uuidSupply w.uuidCounter),
   { w with uuidCounter := w.uuidCounter + 1 })

/-- `model.generate_text(prompts, **params)`: record the call and
answer from the oracle. -/
def generate_text (prompts : List String) (params : Dict) : M String := fun w =>
  (Except.ok (w.llmResponse prompts params),
   { w with llmCalls := w.llmCalls ++ [(prompts, params)] })

/-! ### The `Agent` methods

The instance state the methods consult is `self.agent_data`, passed
explicitly.  Logging and `cprint`/`_show_task` console output have no
effect on any data and are omitted. -/

namespace Agent

/-- Embeds `_get_data`: when `key`'s presence in `kwargs` equals
`invert_logic`, run the loader and, unless it returned `None`, merge
its mapping into `data` (the module's loaders return dictionaries;
other payloads raise as `data.update` would). -/
def _get_data (key : String) (loader : M PyVal) (kwargs : Dict)
    (data : Dict) (invert_logic : Bool) : M Dict :=
  if (!(dictContains kwargs key) && !invert_logic)
      || (dictContains kwargs key && invert_logic) then do
    let db_data ← loader
    match db_data with
    | PyVal.none => return data
    | PyVal.dict d => return dictUpdate data d
    | _ => mthrow Err.typeError
  else
    return data

/-- Embeds `Agent.get_task_list`: load the "Tasks" collection with
documents and metadatas. -/
def get_task_list : M PyVal :=
  load_collection
    [("collection_name", PyVal.str "Tasks"),
     ("include", PyVal.list [PyVal.str "documents", PyVal.str "metadatas"])]

/-- Embeds `Agent.load_current_task`: the first document of the
"Tasks" collection, wrapped as `\x7b'task': task\x7d`; `IndexError`
when the collection is empty. -/
def load_current_task : M PyVal := do
  let task_list ← get_task_list
  let docs ← liftE (getItem task_list "documents")
  match docs with
  | PyVal.list (d :: _) => return PyVal.dict [("task", d)]
  | PyVal.list [] => mthrow Err.indexError
  | _ => mthrow Err.typeError

/-- The initial overlay of `load_and_process_data`:
`data = \x7b\x7d; data.update(self.agent_data, **kwargs)` — all of
`agent_data` assigned in order, then all caller keyword arguments. -/
def merge_agent_data (agent_data : Dict) (kwargs : Dict) : Dict :=
  dictUpdate (dictUpdate ([] : Dict) agent_data) kwargs

/-- Embeds `Agent.load_and_process_data`. -/
def load_and_process_data (agent_data : Dict) (kwargs : Dict) : M Dict := do
  let context_data :=
    if pyTruthy (dictGetOrNone kwargs "context") then
      dictGetOrNone kwargs "context"
    else PyVal.dict []
  let context ← liftE (pyGetOrNone context_data "result")
  let task_result_data :=
    if pyTruthy (dictGetOrNone kwargs "task_result") then
      dictGetOrNone kwargs "task_result"
    else PyVal.dict []
  let task_result ← liftE (pyGetOrNone task_result_data "result")
  let data := merge_agent_data agent_data kwargs
  let data ← _get_data "task" load_current_task kwargs data false
  let data ← _get_data "task_result"
    (mret (PyVal.dict [("result", task_result)])) kwargs data true
  let data := dictUpdate data [("context", context)]
  let data ← liftE (_set_task_order data)
  return data

/-- The `(template, vars)` pairs `Agent.generate_prompt` collects
from the persona's prompts before rendering: the `SystemPrompt` pair
first, then — after dropping `ContextPrompt`/`FeedbackPrompt` when
their keyword argument is `None` — the surviving optional prompt
types in the fixed order `ContextPrompt`, `FeedbackPrompt`,
`InstructionPrompt`. -/
def selected_templates (prompts : Dict) (kwargs : Dict) :
    Except Err (List (PyVal × PyVal)) := do
  let system_prompt ←
    match dictGet prompts "SystemPrompt" with
    | some v => Except.ok v
    | Option.none => Except.error (Err.keyError "SystemPrompt")
  let st ← getItem system_prompt "template"
  let sv ← getItem system_prompt "vars"
  let templates := [(st, sv)]
  let prompts := remove_prompt_if_none prompts kwargs "ContextPrompt" "context"
  let prompts := remove_prompt_if_none prompts kwargs "FeedbackPrompt" "feedback"
  let t1 ← _handle_prompt_type prompts "ContextPrompt"
  let t2 ← _handle_prompt_type prompts "FeedbackPrompt"
  let t3 ← _handle_prompt_type prompts "InstructionPrompt"
  return templates ++ t1 ++ t2 ++ t3

/-- Selection plus rendering, given the prompts dictionary itself:
the tail of `Agent.generate_prompt` after the copy of
`self.agent_data['prompts']` is taken. -/
def render_templates (prompts : Dict) (kwargs : Dict) :
    Except Err (List String) := do
  let templates ← selected_templates prompts kwargs
  templates.mapM fun p => _render_template p.1 p.2 kwargs

/-- Embeds `Agent.generate_prompt`: work on a copy of
`self.agent_data['prompts']`, collect the surviving `(template,
vars)` pairs, and render each against the call's keyword
arguments. -/
def generate_prompt (agent_data : Dict) (kwargs : Dict) :
    Except Err (List String) := do
  let promptsVal ←
    match dictGet agent_data "prompts" with
    | some v => Except.ok v
    | Option.none => Except.error (Err.keyError "prompts")
  let prompts ←
    match promptsVal with
    | PyVal.dict d => Except.ok d
    | _ => Except.error Err.attributeError
  render_templates prompts kwargs

/-- Embeds `Agent.parse_output`: wrap the raw output, ignoring
`bot_id` and `data`. -/
def parse_output (result : PyVal) (bot_id : PyVal) (data : Dict) : Dict :=
  [("result", result)]

/-- Embeds `Agent.run_llm`:
`generate_text(prompt, **params).strip()` with
`params = agent_data.get("params", \x7b\x7d)`. -/
def run_llm (agent_data : Dict) (prompt : List String) : M String := do
  let params := (dictGet agent_data "params").getD (PyVal.dict [])
  match params with
  | PyVal.dict p => do
    let r ← generate_text prompt p
    return r.trim
  | _ => mthrow Err.typeError

/-- Embeds `Agent.save_results` (default collection "Results"). -/
def save_results (result : PyVal) (collection_name : String := "Results") :
    M Unit :=
  save_memory
    [("data", PyVal.list [result]),
     ("collection_name", PyVal.str collection_name)]

/-- Embeds `Agent.save_status`: upsert one task record by id. -/
def save_status (status : PyVal) (task_id : PyVal) (text : PyVal)
    (task_order : PyVal) : M Unit :=
  update_memory
    [("collection_name", PyVal.str "Tasks"),
     ("ids", PyVal.list [task_id]),
     ("data", PyVal.list [text]),
     ("metadata",
      PyVal.list
        [PyVal.dict
          [("Status", status),
           ("Description", text),
           ("Order", task_order)]])]

/-- One step of `Agent.save_tasks`'s metadata list comprehension
(dict-literal evaluation order: `task["Description"]`, then
`str(uuid.uuid4())`, then `task["Order"]`). -/
def save_tasks_meta_one (task : PyVal) : M PyVal := do
  let d ← liftE (getItem task "Description")
  let u ← uuid4
  let o ← liftE (getItem task "Order")
  mret (PyVal.dict
    [("Status", PyVal.str "not completed"),
     ("Description", d),
     ("List_ID", PyVal.str u),
     ("Order", o)])

/-- Embeds `Agent.save_tasks`: clear the "Tasks" collection, build
one metadata record per task, then save with ids the stringified
orders. -/
def save_tasks (ordered_results : List PyVal) (task_desc_list : List PyVal) :
    M Unit := do
  let collection_name := "Tasks"
  clear_collection collection_name
  let metadatas ← ordered_results.mapM save_tasks_meta_one
  let task_orders ← liftE (ordered_results.mapM fun task => getItem task "Order")
  save_memory
    [("collection_name", PyVal.str collection_name),
     ("ids", PyVal.list (task_orders.map fun o => PyVal.str (pyStr o))),
     ("data", PyVal.list task_desc_list),
     ("metadata", PyVal.list metadatas)]

/-- The `"result"` iteration of `Agent.save_parsed_data`'s loop:
when `"result" in parsed_data`, run `save_results(parsed_data
["result"])` and overwrite the running output with the selector
`lambda data: data` (the full parsed-data mapping). -/
def spd_result_step (parsed_data : Dict) (output : PyVal) : M PyVal :=
  if dictContains parsed_data "result" then do
    save_results (dictGetOrNone parsed_data "result")
    mret (PyVal.dict parsed_data)
  else mret output

/-- The `"Tasks"` iteration of `Agent.save_parsed_data`'s loop: when
`"Tasks" in parsed_data`, run `save_tasks(tasks, [task['Description']
for task in tasks])` and overwrite the running output with the
selector `data["Tasks"]`. -/
def spd_tasks_step (parsed_data : Dict) (output : PyVal) : M PyVal :=
  if dictContains parsed_data "Tasks" then
    match dictGetOrNone parsed_data "Tasks" with
    | PyVal.list ts => do
      let descs ← liftE (ts.mapM fun t => getItem t "Description")
      save_tasks ts descs
      liftE (getItem (PyVal.dict parsed_data) "Tasks")
    | _ => mthrow Err.typeError
  else mret output

/-- The `"status"` iteration of `Agent.save_parsed_data`'s loop: when
`"status" in parsed_data`, run `save_status(parsed_data["status"],
parsed_data["task"]["task_id"|"description"|"order"])` and overwrite
the running output with the selector `lambda data: data`. -/
def spd_status_step (parsed_data : Dict) (output : PyVal) : M PyVal :=
  if dictContains parsed_data "status" then do
    let task ← liftE (getItem (PyVal.dict parsed_data) "task")
    let task_id ← liftE (getItem task "task_id")
    let description ← liftE (getItem task "description")
    let order ← liftE (getItem task "order")
    save_status (dictGetOrNone parsed_data "status") task_id description order
    mret (PyVal.dict parsed_data)
  else mret output

/-- Embeds `Agent.save_parsed_data`: the `save_operations` dict
literal iterates its keys in insertion order `"result"`, `"Tasks"`,
`"status"`; each present key runs its persistence routine and
overwrites `output` with its selector's value. -/
def save_parsed_data (parsed_data : Dict) : M PyVal := do
  let output := PyVal.none
  let output ← spd_result_step parsed_data output
  let output ← spd_tasks_step parsed_data output
  let output ← spd_status_step parsed_data output
  return output

/-- Embeds `Agent.run`: the five-stage pipeline. -/
def run (agent_data : Dict) (bot_id : PyVal) (kwargs : Dict) : M PyVal := do
  let data ← load_and_process_data agent_data kwargs
  let prompts ← liftE (generate_prompt agent_data data)
  let result ← run_llm agent_data prompts
  let parsed_data := parse_output (PyVal.str result) bot_id data
  save_parsed_data parsed_data

end Agent

/-! ### A heap-instrumented `generate_prompt`

The pure functions above treat dictionaries as immutable values, so
they cannot distinguish `prompts = self.agent_data['prompts'].copy()`
from an aliasing `prompts = self.agent_data['prompts']`.  To settle
the frame claim about `generate_prompt` we re-run its body in a model
where the persona's prompts dictionary lives at a heap address and
`.copy()` allocates while `.pop(...)` mutates in place, exactly the
Python object semantics the method relies on. -/

/-- A heap of dictionary objects: addresses below `next` are
allocated. -/
structure Heap : Type where
  cells : Nat → Dict
  next : Nat

/-- Allocate a new dictionary object (what `.copy()` does). -/
def halloc (h : Heap) (d : Dict) : Nat × Heap :=
  (h.next, ⟨fun a => if a = h.next then d else h.cells a, h.next + 1⟩)

/-- Read the dictionary at an address. -/
def hread (h : Heap) (a : Nat) : Dict := h.cells a

/-- Overwrite the dictionary at an address (what an in-place `.pop`
does). -/
def hwrite (h : Heap) (a : Nat) (d : Dict) : Heap :=
  ⟨fun a' => if a' = a then d else h.cells a', h.next⟩

/-- `remove_prompt_if_none` acting on the dictionary object at
address `r`: the real function pops in place on the dict it is
handed. -/
def remove_prompt_if_noneRef (h : Heap) (r : Nat) (kwargs : Dict)
    (prompt_type kwarg_key : String) : Heap :=
  if pyTruthy (dictGetOrNone (hread h r) prompt_type)
      && isNone (dictGetOrNone kwargs kwarg_key) then
    hwrite h r (dictPop (hread h r) prompt_type)
  else
    h

/-- `Agent.generate_prompt` with `self.agent_data['prompts']` living
at heap address `pr`: the body first copies it (allocation), reads
the `SystemPrompt` pair from the copy, lets the two
`remove_prompt_if_none` calls mutate the copy, then collects and
renders the remaining prompt types from the mutated copy. -/
def generate_promptRef (h : Heap) (pr : Nat) (kwargs : Dict) :
    Except Err (List String) × Heap :=
  let (r, h1) := halloc h (hread h pr)
  let sysPair : Except Err (PyVal × PyVal) := do
    let system_prompt ←
      match dictGet (hread h1 r) "SystemPrompt" with
      | some v => Except.ok v
      | Option.none => Except.error (Err.keyError "SystemPrompt")
    let st ← getItem system_prompt "template"
    let sv ← getItem system_prompt "vars"
    Except.ok (st, sv)
  match sysPair with
  | Except.error e => (Except.error e, h1)
  | Except.ok (st, sv) =>
    let h2 := remove_prompt_if_noneRef h1 r kwargs "ContextPrompt" "context"
    let h3 := remove_prompt_if_noneRef h2 r kwargs "FeedbackPrompt" "feedback"
    let rendered : Except Err (List String) := do
      let t1 ← _handle_prompt_type (hread h3 r) "ContextPrompt"
      let t2 ← _handle_prompt_type (hread h3 r) "FeedbackPrompt"
      let t3 ← _handle_prompt_type (hread h3 r) "InstructionPrompt"
      ([(st, sv)] ++ t1 ++ t2 ++ t3).mapM fun p =>
        _render_template p.1 p.2 kwargs
    (rendered, h3)

/-! ### Vocabulary for stating the claims -/

/-- Does a parsed-data `"Tasks"` value have the shape the `"Tasks"`
persistence branch consumes: a list of task records, each a
dictionary with `"Description"` and `"Order"` fields? -/
def tasksValueWF : PyVal → Bool
  | PyVal.list ts =>
    ts.all fun t =>
      match t with
      | PyVal.dict d => dictContains d "Description" && dictContains d "Order"
      | _ => false
  | _ => false

/-- Does parsed data carry the `"task"` sub-object the `"status"`
persistence branch consumes (`task_id`, `description`, `order`)? -/
def statusTaskWF (parsed_data : Dict) : Bool :=
  match dictGet parsed_data "task" with
  | some (PyVal.dict t) =>
    dictContains t "task_id" && dictContains t "description"
      && dictContains t "order"
  | _ => false

/-- The metadata records `save_tasks` builds, given the tasks'
descriptions and orders and the UUID supply starting at counter `c`:
one record per task, `Status` fixed to "not completed", a fresh
`List_ID` drawn per record. -/
def taskMetadatas (descs ords : List PyVal) (supply : Nat → String)
    (c : Nat) : List PyVal :=
  match descs, ords with
  | d :: ds, o :: os =>
    PyVal.dict
      [("Status", PyVal.str "not completed"),
       ("Description", d),
       ("List_ID", PyVal.str (supply c)),
       ("Order", o)] :: taskMetadatas ds os supply (c + 1)
  | _, _ => []

/-- A concrete world for exercising theorems on closed inputs: the
"Tasks" collection is empty, the LLM answers "42", UUIDs are drawn
from an injective supply. -/
def w0 : World where
  loadResult := fun _ =>
    Except.ok
      (PyVal.dict
        [("documents", PyVal.list []), ("metadatas", PyVal.list [])])
  llmResponse := fun _ _ => "42"
  uuidSupply := fun n => String.mk (List.replicate n 'u')
  uuidCounter := 0
  ops := []
  llmCalls := []

/-- The same world with the "Tasks" load raising a storage error. -/
def w0raising : World :=
  { w0 with loadResult := fun _ => Except.error (Err.storageError "boom") }

/-- A caller-supplied `context`/`task_result` argument that the
extraction prologue of `load_and_process_data` handles without
raising: anything falsy (`x or \x7b\x7d` replaces it) or any
dictionary. -/
def ctxArgOK : PyVal → Bool
  | PyVal.dict _ => true
  | v => !pyTruthy v

/-- Example agent data for exercising the run-context overlay. -/
def adExample : Dict :=
  [("name", PyVal.str "Old"), ("objective", PyVal.str "obj")]

/-- Example caller keyword arguments colliding with `adExample` on
`"name"` and supplying a `"task"` (so no storage load happens). -/
def kwargsExample : Dict :=
  [("name", PyVal.str "New"), ("task", PyVal.str "T")]

/-- Example keyword arguments carrying `this_task_order = 1`. -/
def kwargsOrderExample : Dict :=
  [("task", PyVal.str "T"), ("this_task_order", PyVal.int 1)]

/-- Example keyword arguments with no `this_task_order`. -/
def kwargsNoOrderExample : Dict :=
  [("task", PyVal.str "T")]

/-- Example persona prompts: a `SystemPrompt` plus a defined
`ContextPrompt`. -/
def promptsC3 : Dict :=
  [("SystemPrompt",
    PyVal.dict [("template", PyVal.str "sys"), ("vars", PyVal.list [])]),
   ("ContextPrompt",
    PyVal.dict
      [("template", PyVal.str "{context}"),
       ("vars", PyVal.list [PyVal.str "context"])])]

/-- Example agent data carrying `promptsC3`. -/
def adC3 : Dict := [("prompts", PyVal.dict promptsC3)]

/-- A one-object heap holding `promptsC3` at address 0. -/
def heapC10 : Heap := ⟨fun _ => promptsC3, 1⟩

/-- The specification's example parsed-data mapping with both a
`"result"` and a `"Tasks"` key. -/
def parsedDataExample : Dict :=
  [("result", PyVal.str "x"),
   ("Tasks", PyVal.list
     [PyVal.dict [("Description", PyVal.str "A"), ("Order", PyVal.int 1)],
      PyVal.dict [("Description", PyVal.str "B"), ("Order", PyVal.int 2)]])]

/-! ## Lemmas about the monad and the dictionary model -/

theorem bind_def {α β : Type} (x : M α) (f : α → M β) :
    (x >>= f) = mbind x f := rfl

theorem pure_def {α : Type} (a : α) : (pure a : M α) = mret a := rfl

theorem dictGet_append_of_some {d1 : Dict} {k : String} {v : PyVal}
    (d2 : Dict) (h : dictGet d1 k = some v) :
    dictGet (d1 ++ d2) k = some v := by
  induction d1 with
  | nil => simp [dictGet] at h
  | cons p rest ih =>
    rw [dictGet] at h
    by_cases hk : p.1 = k
    · obtain ⟨k', v'⟩ := p
      simp only at hk
      subst hk
      simp only [if_pos rfl] at h
      simpa [dictGet] using h
    · obtain ⟨k', v'⟩ := p
      simp only at hk
      simp only [if_neg hk] at h
      simpa [dictGet, hk] using ih h

theorem dictGet_append_of_none {d1 : Dict} {k : String}
    (d2 : Dict) (h : dictGet d1 k = Option.none) :
    dictGet (d1 ++ d2) k = dictGet d2 k := by
  induction d1 with
  | nil => simp [dictGet]
  | cons p rest ih =>
    rw [dictGet] at h
    by_cases hk : p.1 = k
    · obtain ⟨k', v'⟩ := p
      simp only at hk
      subst hk
      simp [if_pos rfl] at h
    · obtain ⟨k', v'⟩ := p
      simp only at hk
      simp only [if_neg hk] at h
      simpa [dictGet, hk] using ih h

theorem dictGet_eq_none_of_not_mem {u : Dict} {k : String}
    (h : k ∉ u.map Prod.fst) : dictGet u k = Option.none := by
  induction u with
  | nil => rfl
  | cons p rest ih =>
    simp only [List.map_cons, List.mem_cons] at h
    push_neg at h
    rw [dictGet, if_neg (fun hk : p.1 = k => h.1 hk.symm)]
    exact ih h.2

theorem dictGet_replaceMap (d : Dict) (k : String) (v : PyVal) (k' : String) :
    dictGet (d.map fun p => if p.1 = k then (k, v) else p) k' =
      if k' = k then (if (dictGet d k).isSome then some v else Option.none)
      else dictGet d k' := by
  induction d with
  | nil =>
    simp only [List.map_nil]
    by_cases hk : k' = k <;> simp [dictGet, hk]
  | cons p rest ih =>
    obtain ⟨k0, v0⟩ := p
    simp only [List.map_cons]
    by_cases h0 : k0 = k
    · subst h0
      have hhead : (if (k0, v0).1 = k0 then (k0, v) else (k0, v0)) = (k0, v) := by
        simp
      rw [hhead]
      by_cases hk : k' = k0
      · subst hk
        simp [dictGet]
      · simp [dictGet, hk, ih, show ¬k0 = k' from fun hh => hk hh.symm]
    · have hhead : (if (k0, v0).1 = k then (k, v) else (k0, v0)) = (k0, v0) := by
        simp [h0]
      rw [hhead]
      by_cases hk : k' = k
      · subst hk
        simp [dictGet, h0, ih]
      · simp [dictGet, h0, hk, ih]

theorem dictGet_dictSet_self (d : Dict) (k : String) (v : PyVal) :
    dictGet (dictSet d k v) k = some v := by
  unfold dictSet
  by_cases hc : dictContains d k = true
  · rw [if_pos hc, dictGet_replaceMap, if_pos rfl]
    unfold dictContains at hc
    rw [if_pos hc]
  · rw [if_neg hc]
    have hn : dictGet d k = Option.none := by
      unfold dictContains at hc
      exact Option.not_isSome_iff_eq_none.mp hc
    rw [dictGet_append_of_none _ hn]
    simp [dictGet]

theorem dictGet_dictSet_other (d : Dict) {k k' : String} (v : PyVal)
    (h : k' ≠ k) : dictGet (dictSet d k v) k' = dictGet d k' := by
  unfold dictSet
  by_cases hc : dictContains d k = true
  · rw [if_pos hc, dictGet_replaceMap, if_neg h]
  · rw [if_neg hc]
    cases hg : dictGet d k' with
    | some v' => exact dictGet_append_of_some _ hg
    | none =>
      rw [dictGet_append_of_none _ hg]
      rw [dictGet, if_neg (fun hh : k = k' => h hh.symm)]
      rfl

theorem dictUpdate_cons (d : Dict) (k : String) (v : PyVal) (u : Dict) :
    dictUpdate d ((k, v) :: u) = dictUpdate (dictSet d k v) u := rfl

theorem dictUpdate_single (d : Dict) (k : String) (v : PyVal) :
    dictUpdate d [(k, v)] = dictSet d k v := rfl

theorem dictGet_dictUpdate_of_none {u : Dict} {k : String} (d : Dict)
    (h : dictGet u k = Option.none) :
    dictGet (dictUpdate d u) k = dictGet d k := by
  induction u generalizing d with
  | nil => rfl
  | cons p u' ih =>
    obtain ⟨k0, v0⟩ := p
    rw [dictGet] at h
    by_cases hk : k0 = k
    · rw [if_pos hk] at h; simp at h
    · rw [if_neg hk] at h
      rw [dictUpdate_cons, ih _ h, dictGet_dictSet_other _ _ (fun hh => hk hh.symm)]

theorem dictGet_dictUpdate_of_some {u : Dict} {k : String} {v : PyVal}
    (d : Dict) (hu : keysNodup u) (h : dictGet u k = some v) :
    dictGet (dictUpdate d u) k = some v := by
  induction u generalizing d with
  | nil => simp [dictGet] at h
  | cons p u' ih =>
    obtain ⟨k0, v0⟩ := p
    unfold keysNodup at hu
    simp only [List.map_cons, List.nodup_cons] at hu
    rw [dictGet] at h
    by_cases hk : k0 = k
    · rw [if_pos hk] at h
      cases h
      subst hk
      have hnone : dictGet u' k0 = Option.none :=
        dictGet_eq_none_of_not_mem hu.1
      rw [dictUpdate_cons, dictGet_dictUpdate_of_none _ hnone,
        dictGet_dictSet_self]
    · rw [if_neg hk] at h
      rw [dictUpdate_cons]
      exact ih _ hu.2 h

theorem dictGet_dictPop_self (d : Dict) (k : String) :
    dictGet (dictPop d k) k = Option.none := by
  induction d with
  | nil => rfl
  | cons p rest ih =>
    unfold dictPop at ih ⊢
    by_cases hk : p.1 = k
    · simp only [List.filter_cons, hk]
      simpa using ih
    · simp only [List.filter_cons]
      rw [if_pos (by simpa using hk)]
      rw [dictGet, if_neg hk]
      exact ih

theorem dictGet_dictPop_other (d : Dict) {k k' : String} (h : k' ≠ k) :
    dictGet (dictPop d k) k' = dictGet d k' := by
  induction d with
  | nil => rfl
  | cons p rest ih =>
    unfold dictPop at ih ⊢
    simp only [List.filter_cons]
    by_cases hk : p.1 = k
    · rw [if_neg (by simpa using hk)]
      rw [dictGet, if_neg (fun hh : p.1 = k' => h (hh ▸ hk ▸ rfl))]
      exact ih
    · rw [if_pos (by simpa using hk)]
      rw [dictGet, dictGet]
      split
      · rfl
      · exact ih

theorem mbind_ok {α β : Type} {x : M α} {w w1 : World} {a : α}
    (f : α → M β) (h : x w = (Except.ok a, w1)) :
    mbind x f w = f a w1 := by
  unfold mbind; rw [h]

theorem mbind_err {α β : Type} {x : M α} {w w1 : World} {e : Err}
    (f : α → M β) (h : x w = (Except.error e, w1)) :
    mbind x f w = (Except.error e, w1) := by
  unfold mbind; rw [h]

theorem mret_apply {α : Type} (a : α) (w : World) :
    mret a w = (Except.ok a, w) := rfl

theorem liftE_ok {α : Type} {x : Except Err α} {a : α} (w : World)
    (h : x = Except.ok a) : liftE x w = (Except.ok a, w) := by
  rw [liftE, h]

theorem mapM_ok_length {ε α β : Type} {f : α → Except ε β} :
    ∀ {ts : List α} {rs : List β}, ts.mapM f = Except.ok rs →
      rs.length = ts.length := by
  intro ts
  induction ts with
  | nil =>
    intro rs h
    rw [List.mapM_nil] at h
    cases h
    rfl
  | cons t ts' ih =>
    intro rs h
    rw [List.mapM_cons] at h
    cases hf : f t with
    | error e => rw [hf] at h; simp [Bind.bind, Except.bind] at h
    | ok b =>
      rw [hf] at h
      cases hm : ts'.mapM f with
      | error e =>
        rw [hm] at h; simp [Bind.bind, Except.bind, pure, Except.pure] at h
      | ok bs =>
        rw [hm] at h
        simp only [Bind.bind, Except.bind, pure, Except.pure] at h
        cases h
        simp [ih hm]

theorem save_tasks_meta_one_apply {t d o : PyVal} (w : World)
    (hd : getItem t "Description" = Except.ok d)
    (ho : getItem t "Order" = Except.ok o) :
    Agent.save_tasks_meta_one t w =
      (Except.ok (PyVal.dict
        [("Status", PyVal.str "not completed"),
         ("Description", d),
         ("List_ID", PyVal.str (w.uuidSupply w.uuidCounter)),
         ("Order", o)]),
       { w with uuidCounter := w.uuidCounter + 1 }) := by
  unfold Agent.save_tasks_meta_one
  simp [bind_def, mbind, liftE, hd, ho, uuid4, mret]

theorem save_tasks_meta_loop :
    ∀ (ts : List PyVal) (descs ords : List PyVal) (w : World),
      ts.mapM (fun t => getItem t "Description") = Except.ok descs →
      ts.mapM (fun t => getItem t "Order") = Except.ok ords →
      ts.mapM Agent.save_tasks_meta_one w =
        (Except.ok (taskMetadatas descs ords w.uuidSupply w.uuidCounter),
         { w with uuidCounter := w.uuidCounter + ts.length }) := by
  intro ts
  induction ts with
  | nil =>
    intro descs ords w hdesc hord
    rw [List.mapM_nil] at hdesc hord
    cases hdesc; cases hord
    rfl
  | cons t ts' ih =>
    intro descs ords w hdesc hord
    rw [List.mapM_cons] at hdesc hord
    cases hgd : getItem t "Description" with
    | error e => rw [hgd] at hdesc; simp [Bind.bind, Except.bind] at hdesc
    | ok d0 =>
      rw [hgd] at hdesc
      cases hmd : ts'.mapM (fun t => getItem t "Description") with
      | error e =>
        rw [hmd] at hdesc
        simp [Bind.bind, Except.bind, pure, Except.pure] at hdesc
      | ok ds' =>
        rw [hmd] at hdesc
        simp only [Bind.bind, Except.bind, pure, Except.pure] at hdesc
        cases hgo : getItem t "Order" with
        | error e => rw [hgo] at hord; simp [Bind.bind, Except.bind] at hord
        | ok o0 =>
          rw [hgo] at hord
          cases hmo : ts'.mapM (fun t => getItem t "Order") with
          | error e =>
            rw [hmo] at hord
            simp [Bind.bind, Except.bind, pure, Except.pure] at hord
          | ok os' =>
            rw [hmo] at hord
            simp only [Bind.bind, Except.bind, pure, Except.pure] at hord
            cases hdesc; cases hord
            rw [List.mapM_cons, bind_def,
              mbind_ok _ (save_tasks_meta_one_apply w hgd hgo), bind_def,
              mbind_ok _ (ih ds' os' _ hmd hmo)]
            simp only [pure_def, mret, taskMetadatas, List.length_cons]
            have hc : w.uuidCounter + 1 + ts'.length
                = w.uuidCounter + (ts'.length + 1) := by omega
            rw [hc]

theorem save_tasks_apply (ts task_desc_list descs ords : List PyVal)
    (w : World)
    (hdesc : ts.mapM (fun t => getItem t "Description") = Except.ok descs)
    (hord : ts.mapM (fun t => getItem t "Order") = Except.ok ords) :
    Agent.save_tasks ts task_desc_list w =
      (Except.ok (),
       { w with
           uuidCounter := w.uuidCounter + ts.length,
           ops := w.ops ++
             [StorageOp.clearCollection "Tasks",
              StorageOp.saveMemory
                [("collection_name", PyVal.str "Tasks"),
                 ("ids", PyVal.list (ords.map fun o => PyVal.str (pyStr o))),
                 ("data", PyVal.list task_desc_list),
                 ("metadata", PyVal.list
                   (taskMetadatas descs ords w.uuidSupply w.uuidCounter))]] }) := by
  unfold Agent.save_tasks
  rw [bind_def, mbind_ok _ (show clear_collection "Tasks" w =
    (Except.ok (), { w with ops := w.ops ++ [StorageOp.clearCollection "Tasks"] })
    from rfl)]
  rw [bind_def, mbind_ok _ (save_tasks_meta_loop ts descs ords _ hdesc hord)]
  rw [bind_def, mbind_ok _ (liftE_ok _ hord)]
  simp [save_memory, List.append_assoc]

theorem mem_metaListIDs {supply : Nat → String} {x : Except Err PyVal} :
    ∀ {descs ords : List PyVal} {c : Nat},
      x ∈ (taskMetadatas descs ords supply c).map (fun m => getItem m "List_ID") →
      ∃ i, c ≤ i ∧ x = Except.ok (PyVal.str (supply i)) := by
  intro descs
  induction descs with
  | nil => intro ords c h; simp [taskMetadatas] at h
  | cons d ds ih =>
    intro ords c h
    cases ords with
    | nil => simp [taskMetadatas] at h
    | cons o os =>
      simp only [taskMetadatas, List.map_cons, List.mem_cons] at h
      rcases h with h | h
      · exact ⟨c, le_refl c, by rw [h]; rfl⟩
      · obtain ⟨i, hi, hx⟩ := ih h
        exact ⟨i, by omega, hx⟩

theorem metaListIDs_nodup {supply : Nat → String}
    (hinj : Function.Injective supply) :
    ∀ (descs ords : List PyVal) (c : Nat),
      ((taskMetadatas descs ords supply c).map
        (fun m => getItem m "List_ID")).Nodup := by
  intro descs
  induction descs with
  | nil => intro ords c; simp [taskMetadatas]
  | cons d ds ih =>
    intro ords c
    cases ords with
    | nil => simp [taskMetadatas]
    | cons o os =>
      simp only [taskMetadatas, List.map_cons, List.nodup_cons]
      refine ⟨fun hmem => ?_, ih os (c + 1)⟩
      obtain ⟨i, hi, hx⟩ := mem_metaListIDs hmem
      have hids : getItem (PyVal.dict
          [("Status", PyVal.str "not completed"),
           ("Description", d),
           ("List_ID", PyVal.str (supply c)),
           ("Order", o)]) "List_ID" = Except.ok (PyVal.str (supply c)) := rfl
      rw [hids] at hx
      have hsup : supply c = supply i := by
        simpa only [Except.ok.injEq, PyVal.str.injEq] using hx
      have : c = i := hinj hsup
      omega

theorem tasksValueWF_mapM : ∀ {ts : List PyVal},
    tasksValueWF (PyVal.list ts) = true →
    (∃ ds, ts.mapM (fun t => getItem t "Description") = Except.ok ds) ∧
    (∃ os, ts.mapM (fun t => getItem t "Order") = Except.ok os) := by
  intro ts
  induction ts with
  | nil => intro h; exact ⟨⟨[], rfl⟩, ⟨[], rfl⟩⟩
  | cons t ts' ih =>
    intro h
    cases t with
    | dict d =>
      simp only [tasksValueWF, List.all_cons, Bool.and_eq_true] at h
      obtain ⟨⟨hd, ho⟩, hts⟩ := h
      obtain ⟨⟨ds, hds⟩, ⟨os, hos⟩⟩ := ih (by simpa [tasksValueWF] using hts)
      rw [dictContains] at hd ho
      obtain ⟨vd, hvd⟩ := Option.isSome_iff_exists.mp hd
      obtain ⟨vo, hvo⟩ := Option.isSome_iff_exists.mp ho
      refine ⟨⟨vd :: ds, ?_⟩, ⟨vo :: os, ?_⟩⟩
      · rw [List.mapM_cons]
        simp only [hds, show getItem (PyVal.dict d) "Description"
          = Except.ok vd from by simp [getItem, hvd]]
        rfl
      · rw [List.mapM_cons]
        simp only [hos, show getItem (PyVal.dict d) "Order"
          = Except.ok vo from by simp [getItem, hvo]]
        rfl
    | none => simp [tasksValueWF] at h
    | bool b => simp [tasksValueWF] at h
    | int n => simp [tasksValueWF] at h
    | str s => simp [tasksValueWF] at h
    | list l => simp [tasksValueWF] at h

theorem spd_result_step_absent (parsed_data : Dict) (o : PyVal) (w : World)
    (h : dictContains parsed_data "result" = false) :
    Agent.spd_result_step parsed_data o w = (Except.ok o, w) := by
  unfold Agent.spd_result_step
  simp [h, mret]

theorem spd_result_step_present (parsed_data : Dict) (o : PyVal) (w : World)
    (h : dictContains parsed_data "result" = true) :
    Agent.spd_result_step parsed_data o w =
      (Except.ok (PyVal.dict parsed_data),
       { w with ops := w.ops ++
          [StorageOp.saveMemory
            [("data", PyVal.list [dictGetOrNone parsed_data "result"]),
             ("collection_name", PyVal.str "Results")]] }) := by
  unfold Agent.spd_result_step
  simp [h, bind_def, mbind, Agent.save_results, save_memory, mret]

theorem spd_tasks_step_absent (parsed_data : Dict) (o : PyVal) (w : World)
    (h : dictContains parsed_data "Tasks" = false) :
    Agent.spd_tasks_step parsed_data o w = (Except.ok o, w) := by
  unfold Agent.spd_tasks_step
  simp [h, mret]

theorem spd_tasks_step_present (parsed_data : Dict)
    {ts : List PyVal}
    (hts : dictGet parsed_data "Tasks" = some (PyVal.list ts))
    (hwf : tasksValueWF (PyVal.list ts) = true) :
    ∃ descs ords, ∀ (o : PyVal) (w : World),
      Agent.spd_tasks_step parsed_data o w =
        (Except.ok (PyVal.list ts),
         { w with
             uuidCounter := w.uuidCounter + ts.length,
             ops := w.ops ++
               [StorageOp.clearCollection "Tasks",
                StorageOp.saveMemory
                  [("collection_name", PyVal.str "Tasks"),
                   ("ids", PyVal.list (ords.map fun v => PyVal.str (pyStr v))),
                   ("data", PyVal.list descs),
                   ("metadata", PyVal.list
                     (taskMetadatas descs ords w.uuidSupply w.uuidCounter))]] }) := by
  obtain ⟨⟨ds, hds⟩, ⟨os, hos⟩⟩ := tasksValueWF_mapM hwf
  refine ⟨ds, os, fun o w => ?_⟩
  unfold Agent.spd_tasks_step
  have hc : dictContains parsed_data "Tasks" = true := by
    rw [dictContains, hts]; rfl
  rw [if_pos hc]
  have hgo : dictGetOrNone parsed_data "Tasks" = PyVal.list ts := by
    rw [dictGetOrNone, hts]; rfl
  rw [hgo]
  show (do
      let descs ← liftE (List.mapM (fun t => getItem t "Description") ts)
      Agent.save_tasks ts descs
      liftE (getItem (PyVal.dict parsed_data) "Tasks")) w = _
  rw [bind_def, mbind_ok _ (liftE_ok _ hds)]
  rw [bind_def, mbind_ok _ (save_tasks_apply ts ds ds os w hds hos)]
  rw [liftE_ok _ (show getItem (PyVal.dict parsed_data) "Tasks"
    = Except.ok (PyVal.list ts) by simp [getItem, hts])]

theorem spd_status_step_absent (parsed_data : Dict) (o : PyVal) (w : World)
    (h : dictContains parsed_data "status" = false) :
    Agent.spd_status_step parsed_data o w = (Except.ok o, w) := by
  unfold Agent.spd_status_step
  simp [h, mret]

theorem spd_status_step_present (parsed_data : Dict)
    (hc : dictContains parsed_data "status" = true)
    (hwf : statusTaskWF parsed_data = true) :
    ∃ tid desc ord, ∀ (o : PyVal) (w : World),
      Agent.spd_status_step parsed_data o w =
        (Except.ok (PyVal.dict parsed_data),
         { w with ops := w.ops ++
            [StorageOp.updateMemory
              [("collection_name", PyVal.str "Tasks"),
               ("ids", PyVal.list [tid]),
               ("data", PyVal.list [desc]),
               ("metadata", PyVal.list
                 [PyVal.dict
                   [("Status", dictGetOrNone parsed_data "status"),
                    ("Description", desc),
                    ("Order", ord)]])]] }) := by
  unfold statusTaskWF at hwf
  cases htask : dictGet parsed_data "task" with
  | none => rw [htask] at hwf; simp at hwf
  | some tv =>
    rw [htask] at hwf
    cases tv with
    | dict t =>
      simp only [Bool.and_eq_true, dictContains] at hwf
      obtain ⟨⟨hid, hdesc⟩, hord⟩ := hwf
      obtain ⟨tid, htid⟩ := Option.isSome_iff_exists.mp hid
      obtain ⟨desc, hde⟩ := Option.isSome_iff_exists.mp hdesc
      obtain ⟨ord, hor⟩ := Option.isSome_iff_exists.mp hord
      refine ⟨tid, desc, ord, fun o w => ?_⟩
      unfold Agent.spd_status_step
      rw [if_pos hc]
      rw [bind_def, mbind_ok _ (liftE_ok _ (show getItem
        (PyVal.dict parsed_data) "task" = Except.ok (PyVal.dict t) by
          simp [getItem, htask]))]
      rw [bind_def, mbind_ok _ (liftE_ok _ (show getItem
        (PyVal.dict t) "task_id" = Except.ok tid by simp [getItem, htid]))]
      rw [bind_def, mbind_ok _ (liftE_ok _ (show getItem
        (PyVal.dict t) "description" = Except.ok desc by
          simp [getItem, hde]))]
      rw [bind_def, mbind_ok _ (liftE_ok _ (show getItem
        (PyVal.dict t) "order" = Except.ok ord by simp [getItem, hor]))]
      rw [bind_def, mbind_ok _ (show Agent.save_status
        (dictGetOrNone parsed_data "status") tid desc ord w = _ from rfl)]
      rfl
    | none => simp at hwf
    | bool b => simp at hwf
    | int n => simp at hwf
    | str s => simp at hwf
    | list l => simp at hwf

theorem save_parsed_data_run (parsed_data : Dict) (w : World)
    {o1 o2 o3 : PyVal} {w1 w2 w3 : World}
    (hs1 : Agent.spd_result_step parsed_data PyVal.none w = (Except.ok o1, w1))
    (hs2 : Agent.spd_tasks_step parsed_data o1 w1 = (Except.ok o2, w2))
    (hs3 : Agent.spd_status_step parsed_data o2 w2 = (Except.ok o3, w3)) :
    Agent.save_parsed_data parsed_data w = (Except.ok o3, w3) := by
  unfold Agent.save_parsed_data
  simp only [bind_def, pure_def, mbind, hs1, hs2, hs3, mret]

/-- C1: `save_parsed_data` inspects `"result"`, `"Tasks"`, `"status"`
in that fixed order; on a mapping containing more than one of them
(each present branch's payload well-formed), every matching branch's
persistence routine fires, and the returned output is the selector
value of the *last* matching key in that order — `"result"` and
`"status"` select the full parsed-data mapping, `"Tasks"` selects
`parsed_data["Tasks"]` — earlier branches' outputs being
overwritten. -/
theorem save_parsed_data_last_key_wins (parsed_data : Dict) (w : World)
    (hwf2 : dictContains parsed_data "Tasks" = true →
      tasksValueWF (dictGetOrNone parsed_data "Tasks") = true)
    (hwf3 : dictContains parsed_data "status" = true →
      statusTaskWF parsed_data = true)
    (hmulti : 2 ≤ (if dictContains parsed_data "result" then 1 else 0)
        + (if dictContains parsed_data "Tasks" then 1 else 0)
        + (if dictContains parsed_data "status" then 1 else 0)) :
    ∃ out w', Agent.save_parsed_data parsed_data w = (Except.ok out, w') ∧
      (dictContains parsed_data "result" = true →
        StorageOp.saveMemory
          [("data", PyVal.list [dictGetOrNone parsed_data "result"]),
           ("collection_name", PyVal.str "Results")] ∈ w'.ops) ∧
      (dictContains parsed_data "Tasks" = true →
        StorageOp.clearCollection "Tasks" ∈ w'.ops ∧
        ∃ ids dataL metas, StorageOp.saveMemory
          [("collection_name", PyVal.str "Tasks"), ("ids", ids),
           ("data", dataL), ("metadata", metas)] ∈ w'.ops) ∧
      (dictContains parsed_data "status" = true →
        ∃ ids dataL metas, StorageOp.updateMemory
          [("collection_name", PyVal.str "Tasks"), ("ids", ids),
           ("data", dataL), ("metadata", metas)] ∈ w'.ops) ∧
      out = (if dictContains parsed_data "status" then PyVal.dict parsed_data
             else if dictContains parsed_data "Tasks" then
               dictGetOrNone parsed_data "Tasks"
             else PyVal.dict parsed_data) := by
  rcases Bool.eq_false_or_eq_true (dictContains parsed_data "result") with h1 | h1 <;>
    rcases Bool.eq_false_or_eq_true (dictContains parsed_data "Tasks") with h2 | h2 <;>
      rcases Bool.eq_false_or_eq_true (dictContains parsed_data "status") with h3 | h3
  -- (result, Tasks, status) = (present, present, present)
  · have h2' := hwf2 h2
    obtain ⟨ts, hts_eq⟩ :
        ∃ ts, dictGetOrNone parsed_data "Tasks" = PyVal.list ts := by
      cases hv : dictGetOrNone parsed_data "Tasks" <;>
        rw [hv] at h2' <;> simp [tasksValueWF] at h2'
      exact ⟨_, rfl⟩
    have htsget : dictGet parsed_data "Tasks" = some (PyVal.list ts) := by
      rw [dictContains] at h2
      obtain ⟨v, hv⟩ := Option.isSome_iff_exists.mp h2
      rw [dictGetOrNone, hv] at hts_eq
      rw [hv]
      simpa using hts_eq
    rw [hts_eq] at h2'
    obtain ⟨ds, os, hs2⟩ := spd_tasks_step_present parsed_data htsget h2'
    obtain ⟨tid, desc, ord, hs3⟩ := spd_status_step_present parsed_data h3 (hwf3 h3)
    have hrun := save_parsed_data_run parsed_data w
      (spd_result_step_present parsed_data PyVal.none w h1)
      (hs2 _ _) (hs3 _ _)
    refine ⟨_, _, hrun, ?_, ?_, ?_, ?_⟩
    · intro _; simp [List.mem_append]
    · intro _
      refine ⟨by simp [List.mem_append], ?_⟩
      exact ⟨PyVal.list (os.map fun v => PyVal.str (pyStr v)), PyVal.list ds,
        PyVal.list (taskMetadatas ds os w.uuidSupply w.uuidCounter),
        by simp [List.mem_append]⟩
    · intro _
      exact ⟨PyVal.list [tid], PyVal.list [desc],
        PyVal.list [PyVal.dict
          [("Status", dictGetOrNone parsed_data "status"),
           ("Description", desc), ("Order", ord)]],
        by simp [List.mem_append]⟩
    · simp [h3]
  -- (present, present, absent)
  · have h2' := hwf2 h2
    obtain ⟨ts, hts_eq⟩ :
        ∃ ts, dictGetOrNone parsed_data "Tasks" = PyVal.list ts := by
      cases hv : dictGetOrNone parsed_data "Tasks" <;>
        rw [hv] at h2' <;> simp [tasksValueWF] at h2'
      exact ⟨_, rfl⟩
    have htsget : dictGet parsed_data "Tasks" = some (PyVal.list ts) := by
      rw [dictContains] at h2
      obtain ⟨v, hv⟩ := Option.isSome_iff_exists.mp h2
      rw [dictGetOrNone, hv] at hts_eq
      rw [hv]
      simpa using hts_eq
    rw [hts_eq] at h2'
    obtain ⟨ds, os, hs2⟩ := spd_tasks_step_present parsed_data htsget h2'
    have hrun := save_parsed_data_run parsed_data w
      (spd_result_step_present parsed_data PyVal.none w h1)
      (hs2 _ _) (spd_status_step_absent parsed_data _ _ h3)
    refine ⟨_, _, hrun, ?_, ?_, ?_, ?_⟩
    · intro _; simp [List.mem_append]
    · intro _
      refine ⟨by simp [List.mem_append], ?_⟩
      exact ⟨PyVal.list (os.map fun v => PyVal.str (pyStr v)), PyVal.list ds,
        PyVal.list (taskMetadatas ds os w.uuidSupply w.uuidCounter),
        by simp [List.mem_append]⟩
    · intro hcontra; rw [hcontra] at h3; cases h3
    · simp [h2, h3, hts_eq]
  -- (present, absent, present)
  · obtain ⟨tid, desc, ord, hs3⟩ := spd_status_step_present parsed_data h3 (hwf3 h3)
    have hrun := save_parsed_data_run parsed_data w
      (spd_result_step_present parsed_data PyVal.none w h1)
      (spd_tasks_step_absent parsed_data _ _ h2) (hs3 _ _)
    refine ⟨_, _, hrun, ?_, ?_, ?_, ?_⟩
    · intro _; simp [List.mem_append]
    · intro hcontra; rw [hcontra] at h2; cases h2
    · intro _
      exact ⟨PyVal.list [tid], PyVal.list [desc],
        PyVal.list [PyVal.dict
          [("Status", dictGetOrNone parsed_data "status"),
           ("Description", desc), ("Order", ord)]],
        by simp [List.mem_append]⟩
    · simp [h3]
  -- (present, absent, absent): only one key
  · simp [h1, h2, h3] at hmulti
  -- (absent, present, present)
  · have h2' := hwf2 h2
    obtain ⟨ts, hts_eq⟩ :
        ∃ ts, dictGetOrNone parsed_data "Tasks" = PyVal.list ts := by
      cases hv : dictGetOrNone parsed_data "Tasks" <;>
        rw [hv] at h2' <;> simp [tasksValueWF] at h2'
      exact ⟨_, rfl⟩
    have htsget : dictGet parsed_data "Tasks" = some (PyVal.list ts) := by
      rw [dictContains] at h2
      obtain ⟨v, hv⟩ := Option.isSome_iff_exists.mp h2
      rw [dictGetOrNone, hv] at hts_eq
      rw [hv]
      simpa using hts_eq
    rw [hts_eq] at h2'
    obtain ⟨ds, os, hs2⟩ := spd_tasks_step_present parsed_data htsget h2'
    obtain ⟨tid, desc, ord, hs3⟩ := spd_status_step_present parsed_data h3 (hwf3 h3)
    have hrun := save_parsed_data_run parsed_data w
      (spd_result_step_absent parsed_data PyVal.none w h1) (hs2 _ _) (hs3 _ _)
    refine ⟨_, _, hrun, ?_, ?_, ?_, ?_⟩
    · intro hcontra; rw [hcontra] at h1; cases h1
    · intro _
      refine ⟨by simp [List.mem_append], ?_⟩
      exact ⟨PyVal.list (os.map fun v => PyVal.str (pyStr v)), PyVal.list ds,
        PyVal.list (taskMetadatas ds os w.uuidSupply w.uuidCounter),
        by simp [List.mem_append]⟩
    · intro _
      exact ⟨PyVal.list [tid], PyVal.list [desc],
        PyVal.list [PyVal.dict
          [("Status", dictGetOrNone parsed_data "status"),
           ("Description", desc), ("Order", ord)]],
        by simp [List.mem_append]⟩
    · simp [h2, h3, hts_eq]
  -- (absent, present, absent): only one key
  · simp [h1, h2, h3] at hmulti
  -- (absent, absent, present): only one key
  · simp [h1, h2, h3] at hmulti
  -- (absent, absent, absent): no key
  · simp [h1, h2, h3] at hmulti

/-- Witness for C1 at the specification's example
`save_parsed_data(\x7b"result": "x", "Tasks": [...]\x7d)`: both keys
present, both branches fire, output is the `"Tasks"` selector. -/
theorem save_parsed_data_last_key_wins_witness :
    (2 ≤ (if dictContains parsedDataExample "result" then 1 else 0)
        + (if dictContains parsedDataExample "Tasks" then 1 else 0)
        + (if dictContains parsedDataExample "status" then 1 else 0)) ∧
    (∃ out w', Agent.save_parsed_data parsedDataExample w0
        = (Except.ok out, w') ∧
      (dictContains parsedDataExample "result" = true →
        StorageOp.saveMemory
          [("data", PyVal.list [dictGetOrNone parsedDataExample "result"]),
           ("collection_name", PyVal.str "Results")] ∈ w'.ops) ∧
      (dictContains parsedDataExample "Tasks" = true →
        StorageOp.clearCollection "Tasks" ∈ w'.ops ∧
        ∃ ids dataL metas, StorageOp.saveMemory
          [("collection_name", PyVal.str "Tasks"), ("ids", ids),
           ("data", dataL), ("metadata", metas)] ∈ w'.ops) ∧
      (dictContains parsedDataExample "status" = true →
        ∃ ids dataL metas, StorageOp.updateMemory
          [("collection_name", PyVal.str "Tasks"), ("ids", ids),
           ("data", dataL), ("metadata", metas)] ∈ w'.ops) ∧
      out = (if dictContains parsedDataExample "status" then
               PyVal.dict parsedDataExample
             else if dictContains parsedDataExample "Tasks" then
               dictGetOrNone parsedDataExample "Tasks"
             else PyVal.dict parsedDataExample)) :=
  ⟨by decide,
   save_parsed_data_last_key_wins parsedDataExample w0
     (by decide) (by decide) (by decide)⟩

theorem load_current_task_ok_inv {w w' : World} {v : PyVal}
    (h : Agent.load_current_task w = (Except.ok v, w')) :
    ∃ d, v = PyVal.dict [("task", d)] := by
  unfold Agent.load_current_task at h
  simp only [bind_def, mbind, liftE] at h
  split at h
  · rename_i a w1 heq
    split at h
    · rename_i docs heq2
      split at h
      · rename_i d rest
        rw [pure_def, mret_apply] at h
        cases h
        exact ⟨d, rfl⟩
      · cases h
      · cases h
    · cases h
  · cases h

theorem isNone_iff {v : PyVal} : isNone v = true ↔ v = PyVal.none := by
  cases v <;> simp [isNone]

theorem set_task_order_ok_inv {data data' : Dict}
    (h : _set_task_order data = Except.ok data') :
    (dictGetOrNone data "this_task_order" = PyVal.none ∧ data' = data) ∨
    (∃ n : Int,
      pyInt (dictGetOrNone data "this_task_order") = Except.ok n ∧
      data' = dictSet data "next_task_order" (PyVal.int (n + 1))) := by
  simp only [_set_task_order] at h
  split at h
  · rename_i hn
    left
    exact ⟨isNone_iff.mp hn, by cases h; rfl⟩
  · right
    unfold _calculate_next_task_order at h
    cases hp : pyInt (dictGetOrNone data "this_task_order") with
    | error e =>
      rw [hp] at h
      simp [Bind.bind, Except.bind] at h
    | ok n =>
      rw [hp] at h
      simp only [Bind.bind, Except.bind, pure, Except.pure] at h
      cases h
      exact ⟨n, rfl, rfl⟩

/-- The shape of every successful `load_and_process_data` result:
some mapping `data3` agreeing with the initial
`agent_data`-overlaid-with-`kwargs` merge on every key other than the
later-written `"task"`, `"result"`, `"context"`, to which
`_set_task_order` then did or did not add `next_task_order`. -/
theorem load_and_process_data_ok_inv {agent_data kwargs : Dict} {w : World}
    {data' : Dict} {w' : World}
    (h : Agent.load_and_process_data agent_data kwargs w = (Except.ok data', w')) :
    ∃ data3 : Dict,
      (∀ k, k ≠ "task" → k ≠ "result" → k ≠ "context" →
        dictGet data3 k = dictGet (Agent.merge_agent_data agent_data kwargs) k) ∧
      ((dictGetOrNone data3 "this_task_order" = PyVal.none ∧ data' = data3) ∨
       (∃ n : Int,
         pyInt (dictGetOrNone data3 "this_task_order") = Except.ok n ∧
         data' = dictSet data3 "next_task_order" (PyVal.int (n + 1)))) := by
  rcases Bool.eq_false_or_eq_true (dictContains kwargs "task") with ht | ht <;>
    rcases Bool.eq_false_or_eq_true (dictContains kwargs "task_result")
      with htr2 | htr2 <;>
  · unfold Agent.load_and_process_data Agent._get_data at h
    simp only [bind_def, mbind, liftE, mret, pure_def, ht, htr2,
      Bool.not_false, Bool.not_true, Bool.and_false, Bool.and_true,
      Bool.or_false, Bool.false_or, Bool.or_true, Bool.true_or,
      if_true, if_false, Bool.false_eq_true, Bool.true_eq_false,
      ite_true, ite_false] at h
    -- dissect the pipeline: context extraction, task_result
    -- extraction, task loading, task_result merging, context write,
    -- task-order step
    split at h
    case h_2 => cases h
    rename_i context wc hctx
    split at h
    case h_2 => cases h
    rename_i task_result wtr htr
    first
    | -- "task" not in kwargs: the loader ran
      (split at h
       case h_2 => cases h
       rename_i a3 w3 hset
       split at hset
       case h_2 => cases hset
       rename_i dbv wdb hdb
       obtain ⟨d, hd⟩ := load_current_task_ok_inv hdb
       subst hd
       simp only [mret] at hset
       cases hset
       first
       | -- "task_result" in kwargs
         (split at h
          case h_2 => cases h
          rename_i a4 w4 hfin
          injection hfin with hfin1 hfin2
          cases h
          refine ⟨_, fun k hk1 hk2 hk3 => ?_, set_task_order_ok_inv hfin1⟩
          rw [dictUpdate_single, dictGet_dictSet_other _ _ hk3,
            dictUpdate_single, dictGet_dictSet_other _ _ hk2,
            dictUpdate_single, dictGet_dictSet_other _ _ hk1])
       | -- "task_result" not in kwargs
         (split at h
          case h_2 => cases h
          rename_i a4 w4 hfin
          injection hfin with hfin1 hfin2
          cases h
          refine ⟨_, fun k hk1 hk2 hk3 => ?_, set_task_order_ok_inv hfin1⟩
          rw [dictUpdate_single, dictGet_dictSet_other _ _ hk3,
            dictUpdate_single, dictGet_dictSet_other _ _ hk1]))
    | -- "task" in kwargs, "task_result" in kwargs
      (split at h
       case h_2 => cases h
       rename_i a3 w3 hset
       injection hset with hset1 hset2
       cases h
       refine ⟨_, fun k hk1 hk2 hk3 => ?_, set_task_order_ok_inv hset1⟩
       rw [dictUpdate_single, dictGet_dictSet_other _ _ hk3,
         dictUpdate_single, dictGet_dictSet_other _ _ hk2])
    | -- "task" in kwargs, "task_result" not in kwargs
      (split at h
       case h_2 => cases h
       rename_i a3 w3 hset
       injection hset with hset1 hset2
       cases h
       refine ⟨_, fun k hk1 hk2 hk3 => ?_, set_task_order_ok_inv hset1⟩
       rw [dictUpdate_single, dictGet_dictSet_other _ _ hk3])

theorem dictGet_dictUpdate_nil {agent_data : Dict} (hnd : keysNodup agent_data)
    (k : String) :
    dictGet (dictUpdate [] agent_data) k = dictGet agent_data k := by
  cases hg : dictGet agent_data k with
  | some v => exact dictGet_dictUpdate_of_some _ hnd hg
  | none => rw [dictGet_dictUpdate_of_none _ hg]; rfl

/-- C6: `load_and_process_data` starts its run context from a copy of
the agent data overlaid with all caller keyword arguments — caller
values winning on every key collision — and on every shared key not
later overwritten by the pipeline's own derived fields the produced
run context still carries the caller's value. -/
theorem load_and_process_data_caller_overlay (agent_data kwargs : Dict)
    (hndk : keysNodup kwargs) (hnda : keysNodup agent_data) :
    (∀ k v, dictGet kwargs k = some v →
      dictGet (Agent.merge_agent_data agent_data kwargs) k = some v) ∧
    (∀ k, dictGet kwargs k = Option.none →
      dictGet (Agent.merge_agent_data agent_data kwargs) k
        = dictGet agent_data k) ∧
    (∀ k v (w : World) (data' : Dict) (w' : World),
      dictGet kwargs k = some v →
      (dictGet agent_data k).isSome = true →
      k ≠ "task" → k ≠ "result" → k ≠ "context" → k ≠ "next_task_order" →
      Agent.load_and_process_data agent_data kwargs w = (Except.ok data', w') →
      dictGet data' k = some v) := by
  refine ⟨fun k v hkw => ?_, fun k hkw => ?_, ?_⟩
  · exact dictGet_dictUpdate_of_some _ hndk hkw
  · rw [Agent.merge_agent_data, dictGet_dictUpdate_of_none _ hkw,
      dictGet_dictUpdate_nil hnda]
  · intro k v w data' w' hkw had hk1 hk2 hk3 hk4 hrun
    obtain ⟨data3, hagree, hdisj⟩ := load_and_process_data_ok_inv hrun
    have h3 : dictGet data3 k = some v := by
      rw [hagree k hk1 hk2 hk3]
      exact dictGet_dictUpdate_of_some _ hndk hkw
    rcases hdisj with ⟨-, rfl⟩ | ⟨n, -, rfl⟩
    · exact h3
    · rw [dictGet_dictSet_other _ _ hk4]
      exact h3

/-- Witness for C6: agent data and caller kwargs colliding on
`"name"`; the produced run context carries the caller's value. -/
theorem load_and_process_data_caller_overlay_witness :
    dictGet kwargsExample "name" = some (PyVal.str "New") ∧
    (dictGet adExample "name").isSome = true ∧
    Agent.load_and_process_data adExample kwargsExample w0
      = (Except.ok
          [("name", PyVal.str "New"), ("objective", PyVal.str "obj"),
           ("task", PyVal.str "T"), ("context", PyVal.none)], w0) ∧
    dictGet
      [("name", PyVal.str "New"), ("objective", PyVal.str "obj"),
       ("task", PyVal.str "T"), ("context", PyVal.none)] "name"
      = some (PyVal.str "New") :=
  ⟨rfl, rfl, rfl,
   (load_and_process_data_caller_overlay adExample kwargsExample
      (by decide) (by decide)).2.2 "name" (PyVal.str "New") w0 _ w0 rfl rfl
      (by decide) (by decide) (by decide) (by decide) rfl⟩

/-- C5: whenever the caller supplies an integer `this_task_order = N`
and `load_and_process_data` succeeds, the produced run context maps
`next_task_order` to `N + 1`; and when `this_task_order` is absent or
`None` (and no `next_task_order` was supplied), no `next_task_order`
field is derived. -/
theorem load_and_process_data_next_task_order
    (agent_data kwargs : Dict) (w : World) (data' : Dict) (w' : World) :
    (∀ N : Int, keysNodup kwargs →
      dictGet kwargs "this_task_order" = some (PyVal.int N) →
      Agent.load_and_process_data agent_data kwargs w = (Except.ok data', w') →
      dictGet data' "next_task_order" = some (PyVal.int (N + 1))) ∧
    (dictGetOrNone (Agent.merge_agent_data agent_data kwargs) "this_task_order"
        = PyVal.none →
      dictGet (Agent.merge_agent_data agent_data kwargs) "next_task_order"
        = Option.none →
      Agent.load_and_process_data agent_data kwargs w = (Except.ok data', w') →
      dictGet data' "next_task_order" = Option.none) := by
  constructor
  · intro N hnd hthis hrun
    obtain ⟨data3, hagree, hdisj⟩ := load_and_process_data_ok_inv hrun
    have h3 : dictGet data3 "this_task_order" = some (PyVal.int N) := by
      rw [hagree "this_task_order" (by decide) (by decide) (by decide)]
      exact dictGet_dictUpdate_of_some _ hnd hthis
    have h3' : dictGetOrNone data3 "this_task_order" = PyVal.int N := by
      rw [dictGetOrNone, h3]; rfl
    rcases hdisj with ⟨hnone, rfl⟩ | ⟨n, hn, rfl⟩
    · rw [h3'] at hnone; cases hnone
    · rw [h3'] at hn
      have hn' : N = n := by
        simpa [pyInt] using hn
      subst hn'
      exact dictGet_dictSet_self _ _ _
  · intro hthis hnext hrun
    obtain ⟨data3, hagree, hdisj⟩ := load_and_process_data_ok_inv hrun
    have h3 : dictGet data3 "this_task_order"
        = dictGet (Agent.merge_agent_data agent_data kwargs) "this_task_order" :=
      hagree "this_task_order" (by decide) (by decide) (by decide)
    have h3' : dictGetOrNone data3 "this_task_order" = PyVal.none := by
      rw [dictGetOrNone, h3]
      rw [dictGetOrNone] at hthis
      exact hthis
    rcases hdisj with ⟨-, rfl⟩ | ⟨n, hn, rfl⟩
    · rw [hagree "next_task_order" (by decide) (by decide) (by decide)]
      exact hnext
    · rw [h3'] at hn
      simp [pyInt] at hn

/-- Witness for C5: `this_task_order = 1` yields
`next_task_order = 2`; with `this_task_order` absent no
`next_task_order` appears. -/
theorem load_and_process_data_next_task_order_witness :
    dictGet kwargsOrderExample "this_task_order" = some (PyVal.int 1) ∧
    dictGet
      [("task", PyVal.str "T"), ("this_task_order", PyVal.int 1),
       ("context", PyVal.none), ("next_task_order", PyVal.int 2)]
      "next_task_order" = some (PyVal.int 2) ∧
    dictGet [("task", PyVal.str "T"), ("context", PyVal.none)]
      "next_task_order" = Option.none :=
  ⟨rfl,
   (load_and_process_data_next_task_order [] kwargsOrderExample w0
      [("task", PyVal.str "T"), ("this_task_order", PyVal.int 1),
       ("context", PyVal.none), ("next_task_order", PyVal.int 2)] w0).1
     1 (by decide) rfl rfl,
   (load_and_process_data_next_task_order [] kwargsNoOrderExample w0
      [("task", PyVal.str "T"), ("context", PyVal.none)] w0).2
     rfl rfl rfl⟩

theorem ctxArgOK_extract {v : PyVal} (h : ctxArgOK v = true) :
    ∃ c, pyGetOrNone (if pyTruthy v then v else PyVal.dict []) "result"
      = Except.ok c := by
  by_cases ht : pyTruthy v = true
  · rw [if_pos ht]
    cases v with
    | dict d => exact ⟨_, rfl⟩
    | none => simp [pyTruthy] at ht
    | bool b => simp [ctxArgOK, ht] at h
    | int n => simp [ctxArgOK, ht] at h
    | str s => simp [ctxArgOK, ht] at h
    | list l => simp [ctxArgOK, ht] at h
  · rw [if_neg ht]
    exact ⟨PyVal.none, rfl⟩

/-- The storage call `load_current_task` records before failing. -/
theorem load_current_task_empty {w : World} {p : PyVal}
    (hp : w.loadResult "Tasks" = Except.ok p)
    (hdocs : getItem p "documents" = Except.ok (PyVal.list [])) :
    Agent.load_current_task w =
      (Except.error Err.indexError,
       { w with ops := w.ops ++
          [StorageOp.loadCollection
            [("collection_name", PyVal.str "Tasks"),
             ("include",
              PyVal.list [PyVal.str "documents", PyVal.str "metadatas"])]] }) := by
  unfold Agent.load_current_task Agent.get_task_list load_collection
  simp only [bind_def, mbind, liftE, mthrow]
  simp only [show dictGet
      [("collection_name", PyVal.str "Tasks"),
       ("include", PyVal.list [PyVal.str "documents", PyVal.str "metadatas"])]
      "collection_name" = some (PyVal.str "Tasks") from rfl]
  simp only [hp, hdocs]
  rfl

theorem load_current_task_raises {w : World} {e : Err}
    (hp : w.loadResult "Tasks" = Except.error e) :
    Agent.load_current_task w =
      (Except.error e,
       { w with ops := w.ops ++
          [StorageOp.loadCollection
            [("collection_name", PyVal.str "Tasks"),
             ("include",
              PyVal.list [PyVal.str "documents", PyVal.str "metadatas"])]] }) := by
  unfold Agent.load_current_task Agent.get_task_list load_collection
  simp only [bind_def, mbind, liftE, mthrow]
  simp only [show dictGet
      [("collection_name", PyVal.str "Tasks"),
       ("include", PyVal.list [PyVal.str "documents", PyVal.str "metadatas"])]
      "collection_name" = some (PyVal.str "Tasks") from rfl]
  simp only [hp]

/-- When the caller supplies no `task` and the current-task load
fails, `load_and_process_data` fails with that same error and
state. -/
theorem load_and_process_data_propagates_task_error
    (agent_data kwargs : Dict) (w : World) {E : Err} {wX : World}
    (htask : dictContains kwargs "task" = false)
    (hctx : ctxArgOK (dictGetOrNone kwargs "context") = true)
    (htr : ctxArgOK (dictGetOrNone kwargs "task_result") = true)
    (hlct : Agent.load_current_task w = (Except.error E, wX)) :
    Agent.load_and_process_data agent_data kwargs w = (Except.error E, wX) := by
  obtain ⟨c, hc⟩ := ctxArgOK_extract hctx
  obtain ⟨tr, htrc⟩ := ctxArgOK_extract htr
  unfold Agent.load_and_process_data Agent._get_data
  simp only [bind_def, mbind, liftE, mret, pure_def, htask, hc, htrc,
    Bool.not_false, Bool.not_true, Bool.and_false, Bool.and_true,
    Bool.or_false, Bool.false_or, if_true, if_false, Bool.false_eq_true,
    Bool.true_eq_false, ite_true, ite_false, hlct]

/-- C7: when the caller supplies no `task` and the "Tasks" collection
is empty — or its load raises — `run` surfaces the data-loading
failure (the empty-collection `IndexError`, respectively the storage
error) and the LLM's `generate_text` is never invoked. -/
theorem run_empty_tasks_fails_before_llm
    (agent_data kwargs : Dict) (bot_id : PyVal) (w : World)
    (htask : dictContains kwargs "task" = false)
    (hctx : ctxArgOK (dictGetOrNone kwargs "context") = true)
    (htr : ctxArgOK (dictGetOrNone kwargs "task_result") = true) :
    (∀ p, w.loadResult "Tasks" = Except.ok p →
      getItem p "documents" = Except.ok (PyVal.list []) →
      (Agent.run agent_data bot_id kwargs w).1 = Except.error Err.indexError ∧
      (Agent.run agent_data bot_id kwargs w).2.llmCalls = w.llmCalls) ∧
    (∀ e, w.loadResult "Tasks" = Except.error e →
      (Agent.run agent_data bot_id kwargs w).1 = Except.error e ∧
      (Agent.run agent_data bot_id kwargs w).2.llmCalls = w.llmCalls) := by
  constructor
  · intro p hp hdocs
    have hload := load_and_process_data_propagates_task_error agent_data kwargs w
      htask hctx htr (load_current_task_empty hp hdocs)
    unfold Agent.run
    rw [bind_def, mbind_err _ hload]
    exact ⟨rfl, rfl⟩
  · intro e hp
    have hload := load_and_process_data_propagates_task_error agent_data kwargs w
      htask hctx htr (load_current_task_raises hp)
    unfold Agent.run
    rw [bind_def, mbind_err _ hload]
    exact ⟨rfl, rfl⟩

/-- Witness for C7 at a concrete world with an empty "Tasks"
collection and at one whose load raises. -/
theorem run_empty_tasks_fails_before_llm_witness :
    ((Agent.run adExample PyVal.none [] w0).1 = Except.error Err.indexError ∧
      (Agent.run adExample PyVal.none [] w0).2.llmCalls = w0.llmCalls) ∧
    ((Agent.run adExample PyVal.none [] w0raising).1
        = Except.error (Err.storageError "boom") ∧
      (Agent.run adExample PyVal.none [] w0raising).2.llmCalls
        = w0raising.llmCalls) :=
  ⟨(run_empty_tasks_fails_before_llm adExample [] PyVal.none w0
      rfl rfl rfl).1 _ rfl rfl,
   (run_empty_tasks_fails_before_llm adExample [] PyVal.none w0raising
      rfl rfl rfl).2 _ rfl⟩

theorem dictGetOrNone_pop_other (d : Dict) {k k' : String} (h : k' ≠ k) :
    dictGetOrNone (dictPop d k) k' = dictGetOrNone d k' := by
  rw [dictGetOrNone, dictGetOrNone, dictGet_dictPop_other _ h]

theorem dictGetOrNone_pop_self (d : Dict) (k : String) :
    dictGetOrNone (dictPop d k) k = PyVal.none := by
  rw [dictGetOrNone, dictGet_dictPop_self]
  rfl

theorem generate_prompt_eq {agent_data : Dict} {P : Dict} (kwargs : Dict)
    (h : dictGet agent_data "prompts" = some (PyVal.dict P)) :
    Agent.generate_prompt agent_data kwargs = Agent.render_templates P kwargs := by
  unfold Agent.generate_prompt
  simp only [h]
  rfl

theorem selected_templates_ok_inv {P kwargs : Dict}
    {tl : List (PyVal × PyVal)}
    (h : Agent.selected_templates P kwargs = Except.ok tl) :
    ∃ sys st sv t1 t2 t3,
      dictGet P "SystemPrompt" = some sys ∧
      getItem sys "template" = Except.ok st ∧
      getItem sys "vars" = Except.ok sv ∧
      _handle_prompt_type
        (remove_prompt_if_none
          (remove_prompt_if_none P kwargs "ContextPrompt" "context")
          kwargs "FeedbackPrompt" "feedback") "ContextPrompt"
        = Except.ok t1 ∧
      _handle_prompt_type
        (remove_prompt_if_none
          (remove_prompt_if_none P kwargs "ContextPrompt" "context")
          kwargs "FeedbackPrompt" "feedback") "FeedbackPrompt"
        = Except.ok t2 ∧
      _handle_prompt_type
        (remove_prompt_if_none
          (remove_prompt_if_none P kwargs "ContextPrompt" "context")
          kwargs "FeedbackPrompt" "feedback") "InstructionPrompt"
        = Except.ok t3 ∧
      tl = (st, sv) :: (t1 ++ t2 ++ t3) := by
  unfold Agent.selected_templates at h
  split at h
  case h_2 => cases h
  rename_i sys hsys
  simp only [Bind.bind, Except.bind] at h
  cases hst : getItem sys "template" with
  | error e => rw [hst] at h; simp [Bind.bind, Except.bind] at h
  | ok st =>
    rw [hst] at h
    simp only [Bind.bind, Except.bind] at h
    cases hsv : getItem sys "vars" with
    | error e => rw [hsv] at h; simp [Except.bind] at h
    | ok sv =>
      rw [hsv] at h
      simp only [Except.bind] at h
      cases ht1 : _handle_prompt_type
          (remove_prompt_if_none
            (remove_prompt_if_none P kwargs "ContextPrompt" "context")
            kwargs "FeedbackPrompt" "feedback") "ContextPrompt" with
      | error e => rw [ht1] at h; simp [Except.bind] at h
      | ok t1 =>
        rw [ht1] at h
        simp only [Except.bind] at h
        cases ht2 : _handle_prompt_type
            (remove_prompt_if_none
              (remove_prompt_if_none P kwargs "ContextPrompt" "context")
              kwargs "FeedbackPrompt" "feedback") "FeedbackPrompt" with
        | error e => rw [ht2] at h; simp [Except.bind] at h
        | ok t2 =>
          rw [ht2] at h
          simp only [Except.bind] at h
          cases ht3 : _handle_prompt_type
              (remove_prompt_if_none
                (remove_prompt_if_none P kwargs "ContextPrompt" "context")
                kwargs "FeedbackPrompt" "feedback") "InstructionPrompt" with
          | error e => rw [ht3] at h; simp [Except.bind] at h
          | ok t3 =>
            rw [ht3] at h
            simp only [Except.bind, pure, Except.pure] at h
            cases h
            exact ⟨sys, st, sv, t1, t2, t3, hsys, hst, hsv, rfl, rfl, rfl, rfl⟩

theorem handle_congr {p q : Dict} (pt : String)
    (h : dictGetOrNone p pt = dictGetOrNone q pt) :
    _handle_prompt_type p pt = _handle_prompt_type q pt := by
  unfold _handle_prompt_type
  rw [h]

theorem handle_of_falsy {p : Dict} {pt : String}
    (h : pyTruthy (dictGetOrNone p pt) = false) :
    _handle_prompt_type p pt = Except.ok [] := by
  simp [_handle_prompt_type, h]
  rfl

theorem dictPop_comm (d : Dict) (a b : String) :
    dictPop (dictPop d a) b = dictPop (dictPop d b) a := by
  unfold dictPop
  rw [List.filter_filter, List.filter_filter]
  congr 1
  funext p
  rw [Bool.and_comm]

theorem remove_prompt_if_none_of_absent {p : Dict} (kwargs : Dict)
    {pt kk : String}
    (h : pyTruthy (dictGetOrNone p pt) = false) :
    remove_prompt_if_none p kwargs pt kk = p := by
  unfold remove_prompt_if_none
  rw [h]
  rfl

theorem remove_prompt_if_none_pops {p : Dict} (kwargs : Dict)
    {pt kk : String}
    (htr : pyTruthy (dictGetOrNone p pt) = true)
    (hnone : isNone (dictGetOrNone kwargs kk) = true) :
    remove_prompt_if_none p kwargs pt kk = dictPop p pt := by
  unfold remove_prompt_if_none
  rw [htr, hnone]
  rfl

theorem selected_templates_pop_context (P kwargs : Dict)
    (hnone : isNone (dictGetOrNone kwargs "context") = true) :
    Agent.selected_templates P kwargs
      = Agent.selected_templates (dictPop P "ContextPrompt") kwargs := by
  have hpopped : remove_prompt_if_none (dictPop P "ContextPrompt") kwargs
      "ContextPrompt" "context" = dictPop P "ContextPrompt" :=
    remove_prompt_if_none_of_absent kwargs
      (by rw [dictGetOrNone_pop_self]; rfl)
  unfold Agent.selected_templates
  rw [show dictGet (dictPop P "ContextPrompt") "SystemPrompt"
    = dictGet P "SystemPrompt" from dictGet_dictPop_other P (by decide)]
  cases dictGet P "SystemPrompt" with
  | none => rfl
  | some sys =>
    dsimp only
    rw [hpopped]
    by_cases htr : pyTruthy (dictGetOrNone P "ContextPrompt") = true
    · rw [remove_prompt_if_none_pops kwargs htr hnone]
    · rw [remove_prompt_if_none_of_absent kwargs
        (Bool.not_eq_true _ ▸ htr : pyTruthy (dictGetOrNone P "ContextPrompt") = false)]
      -- the two pipelines differ only by the absent/falsy ContextPrompt entry
      have hfb : dictGetOrNone (dictPop P "ContextPrompt") "FeedbackPrompt"
          = dictGetOrNone P "FeedbackPrompt" :=
        dictGetOrNone_pop_other P (by decide)
      unfold remove_prompt_if_none
      rw [hfb]
      by_cases hf : (pyTruthy (dictGetOrNone P "FeedbackPrompt")
          && isNone (dictGetOrNone kwargs "feedback")) = true
      · rw [if_pos hf, if_pos hf]
        rw [show dictPop (dictPop P "ContextPrompt") "FeedbackPrompt"
          = dictPop (dictPop P "FeedbackPrompt") "ContextPrompt"
          from dictPop_comm P "ContextPrompt" "FeedbackPrompt"]
        rw [handle_of_falsy (show pyTruthy
            (dictGetOrNone (dictPop P "FeedbackPrompt") "ContextPrompt") = false
            from by
              rw [dictGetOrNone_pop_other P (by decide)]
              exact Bool.not_eq_true _ ▸ htr),
          handle_of_falsy (show pyTruthy
            (dictGetOrNone
              (dictPop (dictPop P "FeedbackPrompt") "ContextPrompt")
              "ContextPrompt") = false
            from by rw [dictGetOrNone_pop_self]; rfl)]
        rw [handle_congr "FeedbackPrompt"
          (show dictGetOrNone (dictPop P "FeedbackPrompt") "FeedbackPrompt"
            = dictGetOrNone
                (dictPop (dictPop P "FeedbackPrompt") "ContextPrompt")
                "FeedbackPrompt" from
            (dictGetOrNone_pop_other _ (by decide)).symm)]
        rw [handle_congr "InstructionPrompt"
          (show dictGetOrNone (dictPop P "FeedbackPrompt") "InstructionPrompt"
            = dictGetOrNone
                (dictPop (dictPop P "FeedbackPrompt") "ContextPrompt")
                "InstructionPrompt" from
            (dictGetOrNone_pop_other _ (by decide)).symm)]
      · rw [if_neg hf, if_neg hf]
        rw [handle_of_falsy (show pyTruthy (dictGetOrNone P "ContextPrompt")
            = false from Bool.not_eq_true _ ▸ htr),
          handle_of_falsy (show pyTruthy
            (dictGetOrNone (dictPop P "ContextPrompt") "ContextPrompt") = false
            from by rw [dictGetOrNone_pop_self]; rfl)]
        rw [handle_congr "FeedbackPrompt"
          (show dictGetOrNone P "FeedbackPrompt"
            = dictGetOrNone (dictPop P "ContextPrompt") "FeedbackPrompt" from
            (dictGetOrNone_pop_other _ (by decide)).symm)]
        rw [handle_congr "InstructionPrompt"
          (show dictGetOrNone P "InstructionPrompt"
            = dictGetOrNone (dictPop P "ContextPrompt") "InstructionPrompt" from
            (dictGetOrNone_pop_other _ (by decide)).symm)]

theorem selected_templates_pop_feedback (P kwargs : Dict)
    (hnone : isNone (dictGetOrNone kwargs "feedback") = true) :
    Agent.selected_templates P kwargs
      = Agent.selected_templates (dictPop P "FeedbackPrompt") kwargs := by
  unfold Agent.selected_templates
  rw [show dictGet (dictPop P "FeedbackPrompt") "SystemPrompt"
    = dictGet P "SystemPrompt" from dictGet_dictPop_other P (by decide)]
  cases dictGet P "SystemPrompt" with
  | none => rfl
  | some sys =>
    dsimp only
    by_cases hc : (pyTruthy (dictGetOrNone P "ContextPrompt")
        && isNone (dictGetOrNone kwargs "context")) = true
    · rw [show remove_prompt_if_none P kwargs "ContextPrompt" "context"
          = dictPop P "ContextPrompt" from by
        unfold remove_prompt_if_none; rw [if_pos hc]]
      rw [show remove_prompt_if_none (dictPop P "FeedbackPrompt") kwargs
          "ContextPrompt" "context"
          = dictPop (dictPop P "FeedbackPrompt") "ContextPrompt" from by
        unfold remove_prompt_if_none
        rw [dictGetOrNone_pop_other P (by decide), if_pos hc]]
      by_cases htr : pyTruthy (dictGetOrNone P "FeedbackPrompt") = true
      · rw [remove_prompt_if_none_pops kwargs
          (show pyTruthy (dictGetOrNone (dictPop P "ContextPrompt")
            "FeedbackPrompt") = true from by
            rw [dictGetOrNone_pop_other P (by decide)]; exact htr) hnone]
        rw [remove_prompt_if_none_of_absent kwargs
          (show pyTruthy (dictGetOrNone
            (dictPop (dictPop P "FeedbackPrompt") "ContextPrompt")
            "FeedbackPrompt") = false from by
            rw [dictGetOrNone_pop_other _ (by decide),
              dictGetOrNone_pop_self]; rfl)]
        rw [dictPop_comm P "ContextPrompt" "FeedbackPrompt"]
      · rw [remove_prompt_if_none_of_absent kwargs
          (show pyTruthy (dictGetOrNone (dictPop P "ContextPrompt")
            "FeedbackPrompt") = false from by
            rw [dictGetOrNone_pop_other P (by decide)]
            exact Bool.not_eq_true _ ▸ htr)]
        rw [remove_prompt_if_none_of_absent kwargs
          (show pyTruthy (dictGetOrNone
            (dictPop (dictPop P "FeedbackPrompt") "ContextPrompt")
            "FeedbackPrompt") = false from by
            rw [dictGetOrNone_pop_other _ (by decide),
              dictGetOrNone_pop_self]; rfl)]
        rw [handle_of_falsy (show pyTruthy (dictGetOrNone
            (dictPop P "ContextPrompt") "ContextPrompt") = false from by
            rw [dictGetOrNone_pop_self]; rfl),
          handle_of_falsy (show pyTruthy (dictGetOrNone
            (dictPop (dictPop P "FeedbackPrompt") "ContextPrompt")
            "ContextPrompt") = false from by
            rw [dictGetOrNone_pop_self]; rfl)]
        rw [handle_of_falsy (show pyTruthy (dictGetOrNone
            (dictPop P "ContextPrompt") "FeedbackPrompt") = false from by
            rw [dictGetOrNone_pop_other P (by decide)]
            exact Bool.not_eq_true _ ▸ htr),
          handle_of_falsy (show pyTruthy (dictGetOrNone
            (dictPop (dictPop P "FeedbackPrompt") "ContextPrompt")
            "FeedbackPrompt") = false from by
            rw [dictGetOrNone_pop_other _ (by decide),
              dictGetOrNone_pop_self]; rfl)]
        rw [handle_congr "InstructionPrompt"
          (show dictGetOrNone (dictPop P "ContextPrompt") "InstructionPrompt"
            = dictGetOrNone
                (dictPop (dictPop P "FeedbackPrompt") "ContextPrompt")
                "InstructionPrompt" from by
            rw [dictGetOrNone_pop_other _ (by decide),
              dictGetOrNone_pop_other _ (by decide),
              dictGetOrNone_pop_other _ (by decide)])]
    · rw [show remove_prompt_if_none P kwargs "ContextPrompt" "context"
          = P from by
        unfold remove_prompt_if_none; rw [if_neg hc]]
      rw [show remove_prompt_if_none (dictPop P "FeedbackPrompt") kwargs
          "ContextPrompt" "context" = dictPop P "FeedbackPrompt" from by
        unfold remove_prompt_if_none
        rw [dictGetOrNone_pop_other P (by decide), if_neg hc]]
      by_cases htr : pyTruthy (dictGetOrNone P "FeedbackPrompt") = true
      · rw [remove_prompt_if_none_pops kwargs htr hnone]
        rw [remove_prompt_if_none_of_absent kwargs
          (show pyTruthy (dictGetOrNone (dictPop P "FeedbackPrompt")
            "FeedbackPrompt") = false from by
            rw [dictGetOrNone_pop_self]; rfl)]
      · rw [remove_prompt_if_none_of_absent kwargs
          (Bool.not_eq_true _ ▸ htr :
            pyTruthy (dictGetOrNone P "FeedbackPrompt") = false)]
        rw [remove_prompt_if_none_of_absent kwargs
          (show pyTruthy (dictGetOrNone (dictPop P "FeedbackPrompt")
            "FeedbackPrompt") = false from by
            rw [dictGetOrNone_pop_self]; rfl)]
        rw [handle_congr "ContextPrompt"
          (show dictGetOrNone P "ContextPrompt"
            = dictGetOrNone (dictPop P "FeedbackPrompt") "ContextPrompt" from
            (dictGetOrNone_pop_other _ (by decide)).symm)]
        rw [handle_of_falsy
          (Bool.not_eq_true _ ▸ htr :
            pyTruthy (dictGetOrNone P "FeedbackPrompt") = false),
          handle_of_falsy (show pyTruthy (dictGetOrNone
            (dictPop P "FeedbackPrompt") "FeedbackPrompt") = false from by
            rw [dictGetOrNone_pop_self]; rfl)]
        rw [handle_congr "InstructionPrompt"
          (show dictGetOrNone P "InstructionPrompt"
            = dictGetOrNone (dictPop P "FeedbackPrompt") "InstructionPrompt"
            from (dictGetOrNone_pop_other _ (by decide)).symm)]

theorem rm_getOrNone_other {p : Dict} (kwargs : Dict) {pt kk k' : String}
    (h : k' ≠ pt) :
    dictGetOrNone (remove_prompt_if_none p kwargs pt kk) k'
      = dictGetOrNone p k' := by
  unfold remove_prompt_if_none
  split
  · exact dictGetOrNone_pop_other _ h
  · rfl

/-- C3: `generate_prompt` always places the rendered `SystemPrompt`
first; with no (or `None`) `context` supplied the output is the same
as if the persona had no `ContextPrompt` at all, and likewise for
`feedback`/`FeedbackPrompt`; the surviving optional prompt types are
appended after the system pair in the fixed order `ContextPrompt`,
`FeedbackPrompt`, `InstructionPrompt`, the `InstructionPrompt`
contribution being unaffected by the drops. -/
theorem generate_prompt_structure (agent_data kwargs prompts : Dict)
    (hprompts : dictGet agent_data "prompts" = some (PyVal.dict prompts)) :
    (∀ out, Agent.generate_prompt agent_data kwargs = Except.ok out →
      ∃ sys st sv r rest,
        dictGet prompts "SystemPrompt" = some sys ∧
        getItem sys "template" = Except.ok st ∧
        getItem sys "vars" = Except.ok sv ∧
        _render_template st sv kwargs = Except.ok r ∧
        out = r :: rest) ∧
    (isNone (dictGetOrNone kwargs "context") = true →
      Agent.generate_prompt agent_data kwargs
        = Agent.render_templates (dictPop prompts "ContextPrompt") kwargs) ∧
    (isNone (dictGetOrNone kwargs "feedback") = true →
      Agent.generate_prompt agent_data kwargs
        = Agent.render_templates (dictPop prompts "FeedbackPrompt") kwargs) ∧
    (∀ tl, Agent.selected_templates prompts kwargs = Except.ok tl →
      ∃ st sv t1 t2 t3,
        tl = (st, sv) :: (t1 ++ t2 ++ t3) ∧
        _handle_prompt_type
          (remove_prompt_if_none
            (remove_prompt_if_none prompts kwargs "ContextPrompt" "context")
            kwargs "FeedbackPrompt" "feedback") "ContextPrompt"
          = Except.ok t1 ∧
        _handle_prompt_type
          (remove_prompt_if_none
            (remove_prompt_if_none prompts kwargs "ContextPrompt" "context")
            kwargs "FeedbackPrompt" "feedback") "FeedbackPrompt"
          = Except.ok t2 ∧
        _handle_prompt_type prompts "InstructionPrompt" = Except.ok t3) := by
  refine ⟨?_, ?_, ?_, ?_⟩
  · intro out hok
    rw [generate_prompt_eq kwargs hprompts] at hok
    unfold Agent.render_templates at hok
    cases hsel : Agent.selected_templates prompts kwargs with
    | error e => rw [hsel] at hok; simp [Bind.bind, Except.bind] at hok
    | ok tl =>
      rw [hsel] at hok
      simp only [Bind.bind, Except.bind] at hok
      obtain ⟨sys, st, sv, t1, t2, t3, hsys, hst, hsv, -, -, -, htl⟩ :=
        selected_templates_ok_inv hsel
      subst htl
      rw [List.mapM_cons] at hok
      simp only [Bind.bind, Except.bind] at hok
      cases hr : _render_template st sv kwargs with
      | error e => rw [hr] at hok; simp at hok
      | ok r =>
        rw [hr] at hok
        cases hrest : (t1 ++ t2 ++ t3).mapM
            (fun p => _render_template p.1 p.2 kwargs) with
        | error e => rw [hrest] at hok; simp at hok
        | ok rs =>
          rw [hrest] at hok
          simp only [pure, Except.pure] at hok
          cases hok
          exact ⟨sys, st, sv, r, rs, hsys, hst, hsv, hr, rfl⟩
  · intro h
    rw [generate_prompt_eq kwargs hprompts]
    unfold Agent.render_templates
    rw [selected_templates_pop_context prompts kwargs h]
  · intro h
    rw [generate_prompt_eq kwargs hprompts]
    unfold Agent.render_templates
    rw [selected_templates_pop_feedback prompts kwargs h]
  · intro tl h
    obtain ⟨sys, st, sv, t1, t2, t3, hsys, hst, hsv, h1, h2, h3, htl⟩ :=
      selected_templates_ok_inv h
    refine ⟨st, sv, t1, t2, t3, htl, h1, h2, ?_⟩
    rw [← h3]
    exact (handle_congr "InstructionPrompt"
      (by rw [rm_getOrNone_other kwargs (by decide),
        rm_getOrNone_other kwargs (by decide)])).symm

/-- Witness for C3: a persona defining `SystemPrompt` and
`ContextPrompt`, called with no `context`: the output is just the
rendered `SystemPrompt`, identical to a persona without the
`ContextPrompt`. -/
theorem generate_prompt_structure_witness :
    Agent.generate_prompt adC3 [] = Except.ok ["sys"] ∧
    (∃ sys st sv r rest,
      dictGet promptsC3 "SystemPrompt" = some sys ∧
      getItem sys "template" = Except.ok st ∧
      getItem sys "vars" = Except.ok sv ∧
      _render_template st sv [] = Except.ok r ∧
      (["sys"] : List String) = r :: rest) ∧
    Agent.generate_prompt adC3 []
      = Agent.render_templates (dictPop promptsC3 "ContextPrompt") [] :=
  have h := generate_prompt_structure adC3 [] promptsC3 rfl
  ⟨rfl, h.1 ["sys"] rfl, h.2.1 rfl⟩

theorem substItems_ok_of_all {items : List TemplateItem} {m : Dict}
    (h : ∀ n ∈ placeholders items, (dictGet m n).isSome = true) :
    ∃ s, substItems items m = Except.ok s := by
  induction items with
  | nil => exact ⟨"", rfl⟩
  | cons it rest ih =>
    cases it with
    | lit c =>
      obtain ⟨s, hs⟩ := ih fun n hn => h n (by simpa [placeholders] using hn)
      exact ⟨c.toString ++ s, by simp [substItems, hs, Except.map]⟩
    | var n =>
      have hn := h n (by simp [placeholders])
      obtain ⟨v, hv⟩ := Option.isSome_iff_exists.mp hn
      obtain ⟨s, hs⟩ := ih fun n' hn' => h n' (by simp [placeholders, hn'])
      exact ⟨pyStr v ++ s, by simp [substItems, hv, hs, Except.map]⟩

theorem substItems_err_of_missing {items : List TemplateItem} {m : Dict}
    (h : ∃ n ∈ placeholders items, dictGet m n = Option.none) :
    ∃ n', substItems items m = Except.error (Err.keyError n') := by
  induction items with
  | nil =>
    obtain ⟨n, hn, -⟩ := h
    simp [placeholders] at hn
  | cons it rest ih =>
    cases it with
    | lit c =>
      obtain ⟨n', hs⟩ := ih (by simpa [placeholders] using h)
      exact ⟨n', by simp [substItems, hs, Except.map]⟩
    | var n =>
      cases hv : dictGet m n with
      | none => exact ⟨n, by simp [substItems, hv]⟩
      | some v =>
        obtain ⟨n', hn', hnone⟩ := h
        simp only [placeholders, List.mem_cons] at hn'
        rcases hn' with rfl | hn'
        · rw [hv] at hnone; cases hnone
        · obtain ⟨n'', hs⟩ := ih ⟨n', hn', hnone⟩
          exact ⟨n'', by simp [substItems, hv, hs, Except.map]⟩

/-- Counterexample to C2 as stated: the template `"hello"` declares
variable `"task"` in its `vars` list, the run context is empty — the
declared variable is absent — yet rendering succeeds: `str.format`
only consults the variables the template actually references. -/
theorem render_template_declared_absent_no_failure :
    _render_template (PyVal.str "hello") (PyVal.list [PyVal.str "task"]) []
        = Except.ok "hello" ∧
      dictGet ([] : Dict) "task" = Option.none :=
  ⟨rfl, rfl⟩

/-- C2 amended: rendering substitutes the placeholders the template
references (from the `vars`-filtered run context) and fails with a
missing-key error exactly when some *referenced* placeholder is
absent from that filtered context; a declared-but-unreferenced
variable may be absent without failure. -/
theorem render_template_referenced_vars (t : String) (vs : List PyVal)
    (data : Dict) (items : List TemplateItem)
    (hparse : parseFormat t.toList = Except.ok items) :
    ((∀ n ∈ placeholders items,
        (dictGet (filterVars data vs) n).isSome = true) →
      ∃ s, _render_template (PyVal.str t) (PyVal.list vs) data
        = Except.ok s) ∧
    ((∃ n ∈ placeholders items,
        dictGet (filterVars data vs) n = Option.none) →
      ∃ n', _render_template (PyVal.str t) (PyVal.list vs) data
        = Except.error (Err.keyError n')) := by
  constructor
  · intro hall
    obtain ⟨s, hs⟩ := substItems_ok_of_all hall
    exact ⟨s, by
      simp [_render_template, pyFormat, hs, Bind.bind, Except.bind,
        show parseFormat t.data = Except.ok items from hparse]⟩
  · intro hmiss
    obtain ⟨n', hs⟩ := substItems_err_of_missing hmiss
    exact ⟨n', by
      simp [_render_template, pyFormat, hs, Bind.bind, Except.bind,
        show parseFormat t.data = Except.ok items from hparse]⟩

/-- Witness for amended C2: `"\x7btask\x7d"` with
`RunContext = \x7b"task": "Write docs"\x7d` renders to the literal
substituted string, and fails with `KeyError("task")` when `"task"`
is absent. -/
theorem render_template_referenced_vars_witness :
    parseFormat ("{task}").toList = Except.ok [TemplateItem.var "task"] ∧
    (∃ s, _render_template (PyVal.str "{task}") (PyVal.list [PyVal.str "task"])
        [("task", PyVal.str "Write docs")] = Except.ok s) ∧
    _render_template (PyVal.str "{task}") (PyVal.list [PyVal.str "task"])
        [("task", PyVal.str "Write docs")] = Except.ok "Write docs" ∧
    (∃ n', _render_template (PyVal.str "{task}")
        (PyVal.list [PyVal.str "task"]) []
        = Except.error (Err.keyError n')) ∧
    _render_template (PyVal.str "{task}") (PyVal.list [PyVal.str "task"]) []
        = Except.error (Err.keyError "task") :=
  ⟨rfl,
   (render_template_referenced_vars "{task}" [PyVal.str "task"]
      [("task", PyVal.str "Write docs")] [TemplateItem.var "task"] rfl).1
     (by decide),
   rfl,
   (render_template_referenced_vars "{task}" [PyVal.str "task"] []
      [TemplateItem.var "task"] rfl).2
     ⟨"task", by decide, rfl⟩,
   rfl⟩

theorem hread_hwrite_self (h : Heap) (a : Nat) (d : Dict) :
    hread (hwrite h a d) a = d := by
  simp [hread, hwrite]

theorem hread_hwrite_other (h : Heap) {a a' : Nat} (d : Dict)
    (hne : a' ≠ a) : hread (hwrite h a d) a' = hread h a' := by
  simp [hread, hwrite, hne]

theorem rmRef_read_self (h : Heap) (r : Nat) (kwargs : Dict)
    (pt kk : String) :
    hread (remove_prompt_if_noneRef h r kwargs pt kk) r
      = remove_prompt_if_none (hread h r) kwargs pt kk := by
  unfold remove_prompt_if_noneRef remove_prompt_if_none
  by_cases hc : (pyTruthy (dictGetOrNone (hread h r) pt)
      && isNone (dictGetOrNone kwargs kk)) = true
  · rw [if_pos hc, if_pos hc, hread_hwrite_self]
  · rw [if_neg hc, if_neg hc]

theorem rmRef_read_other (h : Heap) {r a : Nat} (kwargs : Dict)
    (pt kk : String) (hne : a ≠ r) :
    hread (remove_prompt_if_noneRef h r kwargs pt kk) a = hread h a := by
  unfold remove_prompt_if_noneRef
  split
  · exact hread_hwrite_other _ _ hne
  · rfl

/-- C10: `generate_prompt` leaves the agent's stored prompt
configuration untouched — run against the heap semantics where
`self.agent_data['prompts']` is a mutable object, the call operates
on a freshly allocated copy, the original object is unchanged
afterwards, and the produced value is exactly the pure
selection-and-rendering of the stored prompts. -/
theorem generate_prompt_copy_preserves_prompts (h : Heap) (pr : Nat)
    (kwargs : Dict) (hpr : pr < h.next) :
    hread (generate_promptRef h pr kwargs).2 pr = hread h pr ∧
    (generate_promptRef h pr kwargs).1
      = Agent.render_templates (hread h pr) kwargs := by
  have hne : pr ≠ h.next := Nat.ne_of_lt hpr
  unfold generate_promptRef
  simp only [halloc]
  set h1 : Heap := ⟨fun a => if a = h.next then hread h pr else h.cells a,
    h.next + 1⟩ with hh1
  have hr1self : hread h1 h.next = hread h pr := by
    rw [hh1]; simp [hread]
  have hr1pr : hread h1 pr = hread h pr := by
    rw [hh1]; simp [hread, hne]
  rw [hr1self]
  cases hd : dictGet (hread h pr) "SystemPrompt" with
  | none =>
    simp only [Bind.bind, Except.bind]
    exact ⟨hr1pr, by
      unfold Agent.render_templates Agent.selected_templates
      simp [hd, Bind.bind, Except.bind]⟩
  | some sys =>
    simp only [Bind.bind, Except.bind]
    cases hst : getItem sys "template" with
    | error e =>
      exact ⟨hr1pr, by
        unfold Agent.render_templates Agent.selected_templates
        simp [hd, hst, Bind.bind, Except.bind]⟩
    | ok st =>
      cases hsv : getItem sys "vars" with
      | error e =>
        exact ⟨hr1pr, by
          unfold Agent.render_templates Agent.selected_templates
          simp [hd, hst, hsv, Bind.bind, Except.bind]⟩
      | ok sv =>
        rw [rmRef_read_self, rmRef_read_self, hr1self]
        constructor
        · rw [rmRef_read_other _ _ _ _ hne, rmRef_read_other _ _ _ _ hne,
            hr1pr]
        · unfold Agent.render_templates Agent.selected_templates
          simp only [hd, hst, hsv, Bind.bind, Except.bind]
          generalize _handle_prompt_type
            (remove_prompt_if_none
              (remove_prompt_if_none (hread h pr) kwargs
                "ContextPrompt" "context")
              kwargs "FeedbackPrompt" "feedback") "ContextPrompt" = H1
          cases H1 with
          | error e => rfl
          | ok t1 =>
            generalize _handle_prompt_type
              (remove_prompt_if_none
                (remove_prompt_if_none (hread h pr) kwargs
                  "ContextPrompt" "context")
                kwargs "FeedbackPrompt" "feedback") "FeedbackPrompt" = H2
            cases H2 with
            | error e => rfl
            | ok t2 =>
              generalize _handle_prompt_type
                (remove_prompt_if_none
                  (remove_prompt_if_none (hread h pr) kwargs
                    "ContextPrompt" "context")
                  kwargs "FeedbackPrompt" "feedback") "InstructionPrompt" = H3
              cases H3 with
              | error e => rfl
              | ok t3 => rfl

/-- Witness for C10 on a concrete heap and persona. -/
theorem generate_prompt_copy_preserves_prompts_witness :
    (0 : Nat) < heapC10.next ∧
    hread (generate_promptRef heapC10 0 []).2 0 = hread heapC10 0 ∧
    (generate_promptRef heapC10 0 []).1
      = Agent.render_templates (hread heapC10 0) [] :=
  have h := generate_prompt_copy_preserves_prompts heapC10 0 [] (by decide)
  ⟨by decide, h.1, h.2⟩

theorem w0_uuid_inj : Function.Injective w0.uuidSupply := by
  intro a b h
  simp only [w0] at h
  have h' : List.replicate a 'u' = List.replicate b 'u' :=
    congrArg String.data h
  simpa using congrArg List.length h'

/-- C4: on a non-empty list of task records with `Description` and
`Order` fields, `save_tasks` first clears the "Tasks" collection and
then saves one record per input task — ids the stringified `Order`
values, data the description list, per-task metadata carrying
`Status` "not completed", the task's `Description` and `Order`, and a
freshly drawn `List_ID`, all `List_ID`s pairwise distinct. -/
theorem save_tasks_clear_then_save (ts descs ords : List PyVal) (w : World)
    (hne : ts ≠ [])
    (hdesc : ts.mapM (fun t => getItem t "Description") = Except.ok descs)
    (hord : ts.mapM (fun t => getItem t "Order") = Except.ok ords)
    (hinj : Function.Injective w.uuidSupply) :
    Agent.save_tasks ts descs w =
      (Except.ok (),
       { w with
           uuidCounter := w.uuidCounter + ts.length,
           ops := w.ops ++
             [StorageOp.clearCollection "Tasks",
              StorageOp.saveMemory
                [("collection_name", PyVal.str "Tasks"),
                 ("ids", PyVal.list (ords.map fun o => PyVal.str (pyStr o))),
                 ("data", PyVal.list descs),
                 ("metadata", PyVal.list
                   (taskMetadatas descs ords w.uuidSupply w.uuidCounter))]] }) ∧
      ((taskMetadatas descs ords w.uuidSupply w.uuidCounter).map
        (fun m => getItem m "List_ID")).Nodup ∧
      descs.length = ts.length ∧ ords.length = ts.length :=
  ⟨save_tasks_apply ts descs descs ords w hdesc hord,
   metaListIDs_nodup hinj descs ords w.uuidCounter,
   mapM_ok_length hdesc, mapM_ok_length hord⟩

/-- Witness for C4 at the specification's concrete example. -/
theorem save_tasks_clear_then_save_witness :
    Agent.save_tasks
        [PyVal.dict [("Description", PyVal.str "A"), ("Order", PyVal.int 1)],
         PyVal.dict [("Description", PyVal.str "B"), ("Order", PyVal.int 2)]]
        [PyVal.str "A", PyVal.str "B"] w0
      = (Except.ok (),
         { w0 with
             uuidCounter := 2,
             ops :=
               [StorageOp.clearCollection "Tasks",
                StorageOp.saveMemory
                  [("collection_name", PyVal.str "Tasks"),
                   ("ids", PyVal.list [PyVal.str "1", PyVal.str "2"]),
                   ("data", PyVal.list [PyVal.str "A", PyVal.str "B"]),
                   ("metadata", PyVal.list
                     [PyVal.dict
                       [("Status", PyVal.str "not completed"),
                        ("Description", PyVal.str "A"),
                        ("List_ID", PyVal.str (w0.uuidSupply 0)),
                        ("Order", PyVal.int 1)],
                      PyVal.dict
                       [("Status", PyVal.str "not completed"),
                        ("Description", PyVal.str "B"),
                        ("List_ID", PyVal.str (w0.uuidSupply 1)),
                        ("Order", PyVal.int 2)]])]] }) ∧
      ((taskMetadatas [PyVal.str "A", PyVal.str "B"]
          [PyVal.int 1, PyVal.int 2] w0.uuidSupply 0).map
        (fun m => getItem m "List_ID")).Nodup :=
  have h := save_tasks_clear_then_save
    [PyVal.dict [("Description", PyVal.str "A"), ("Order", PyVal.int 1)],
     PyVal.dict [("Description", PyVal.str "B"), ("Order", PyVal.int 2)]]
    [PyVal.str "A", PyVal.str "B"] [PyVal.int 1, PyVal.int 2] w0
    (by simp) rfl rfl w0_uuid_inj
  ⟨h.1, h.2.1⟩

/-- C8: for every raw output string `s`, every `bot_id` and every
run-context mapping, the base `parse_output` returns exactly
`\x7b"result": s\x7d`, identically across any two invocations that
differ only in `bot_id` and/or `data`. -/
theorem parse_output_wraps_raw_output (s : String) (bot_id : PyVal)
    (data : Dict) (bot_id' : PyVal) (data' : Dict) :
    Agent.parse_output (PyVal.str s) bot_id data
        = [("result", PyVal.str s)] ∧
      Agent.parse_output (PyVal.str s) bot_id data
        = Agent.parse_output (PyVal.str s) bot_id' data' :=
  ⟨rfl, rfl⟩

/-- C9: on a parsed-data mapping containing none of the keys
`"result"`, `"Tasks"`, `"status"`, `save_parsed_data` performs no
persistence call (the world, including its operation trace, is left
untouched) and returns `None`. -/
theorem save_parsed_data_no_recognized_keys (parsed_data : Dict) (w : World)
    (h1 : dictGet parsed_data "result" = Option.none)
    (h2 : dictGet parsed_data "Tasks" = Option.none)
    (h3 : dictGet parsed_data "status" = Option.none) :
    Agent.save_parsed_data parsed_data w = (Except.ok PyVal.none, w) := by
  unfold Agent.save_parsed_data Agent.spd_result_step Agent.spd_tasks_step
    Agent.spd_status_step
  simp [bind_def, pure_def, mbind, mret, dictContains, h1, h2, h3]

/-- Witness for C9 at a concrete input. -/
theorem save_parsed_data_no_recognized_keys_witness :
    Agent.save_parsed_data [("foo", PyVal.str "bar")] w0
      = (Except.ok PyVal.none, w0) :=
  save_parsed_data_no_recognized_keys [("foo", PyVal.str "bar")] w0 rfl rfl rfl

end AgentForge

